import Mathlib

/-!
Verification of the StellarFusion cross-chain escrow contracts.

This file shallowly embeds the three Soroban (Rust) contracts of the
repository:

* `Factory`  — `contracts/hello-world/src/lib.rs`, the `HashLockedEscrowFactory`
  holding source/destination escrow records;
* `Lop`      — `contracts/limit-order-protocol/src/lib.rs`, the
  `SimpleLimitOrderProtocol` doing order-fill bookkeeping and allowance custody;
* `Resolver` — `contracts/resolver/src/lib.rs`, the `SimpleResolver`
  (SwapOrchestrator) composing the two.

Modelling conventions:

* Addresses and 32-byte values (`BytesN<32>`, secrets) are modelled as `Nat`.
  Byte-lexicographic comparison of two 32-byte arrays coincides with numeric
  comparison of their big-endian values, which is how merkle-pair ordering is
  modelled.
* `u64`/`u32` quantities (timestamps, counters, part indices) are modelled as
  `Nat`; `i128` monetary amounts as `Int`.  None of the verified claims engage
  integer overflow.
* Soroban persistent/instance storage is modelled as association lists with
  first-match lookup; `env.current_contract_address()` is the `contractAddr`
  field of the state; `env.ledger().timestamp()` is an explicit `now` argument.
* `env.crypto().sha256` is an environment primitive external to the contract
  code; the three distinct uses (hash of a raw secret, hash of the 40-byte
  leaf encoding, hash of the 64-byte pair concatenation) are modelled as the
  fields of a `Crypto` parameter, so theorems hold for every interpretation
  of the hash, the real SHA-256 among them.
* A Rust `panic!` aborts the whole Soroban invocation with no state committed;
  every contract entry point is therefore modelled as returning
  `Except Err _`, where the error branch carries no state (caller state is
  unchanged on failure by construction).
* Token movements (`token::Client` `transfer`/`transfer_from`) are external
  collaborator calls; they are recorded as emitted `Transfer` events.
  Likewise `require_auth()` calls are recorded as the list of principals
  whose authorization the call demands.
-/

/-! ## Basic state containers -/

/-- Principal / contract identifiers (Soroban `Address`). -/
abbrev Address := Nat

/-- Abstract 32-byte values (`BytesN<32>`): hashes, order hashes, secrets. -/
abbrev H32 := Nat

/-- Soroban storage modelled as an association list with first-match lookup. -/
abbrev KV (K V : Type) := List (K × V)

/-- First-match lookup, the semantics of `env.storage().get`. -/
def KV.find {K V : Type} [DecidableEq K] : KV K V → K → Option V
  | [], _ => none
  | (k', v) :: rest, k => if k = k' then some v else KV.find rest k

/-- Overwriting update, the semantics of `env.storage().set`. -/
def KV.set {K V : Type} (m : KV K V) (k : K) (v : V) : KV K V :=
  (k, v) :: m

/-- The three distinct uses of `env.crypto().sha256` in the contracts, left
abstract: theorems quantify over every interpretation (the real SHA-256
being one of them). -/
structure Crypto where
  /-- SHA-256 of a raw secret byte string. -/
  sha : Nat → H32
  /-- SHA-256 of `be64(index) ++ secretHash`, the packed input of
  `generate_leaf`. -/
  leafHash : Nat → H32 → H32
  /-- SHA-256 of the 64-byte concatenation `a ++ b` (`hash_pair`). -/
  pairHash : H32 → H32 → H32

/-- A token movement emitted by the contract (external collaborator call).
`viaAllowance` distinguishes `transfer_from` (allowance pull) from a direct
`transfer`. -/
structure Transfer where
  token : Address
  src : Address
  dst : Address
  amount : Int
  viaAllowance : Bool
deriving Repr, DecidableEq

/-- `SourceEscrowData` of the factory contract. -/
structure SourceEscrowData where
  creator : Address
  recipient : Address
  hashed_secret : H32
  token : Address
  amount : Int
  security_deposit : Int
  withdrawal_start : Nat
  public_withdrawal_start : Nat
  cancellation_start : Nat
  public_cancellation_start : Nat
  funds_withdrawn : Bool
  cancelled : Bool
  part_index : Nat
  total_parts : Nat
  is_part_fill : Bool
deriving Repr, DecidableEq

/-- `DestinationEscrowData` of the factory contract (no
`public_cancellation_start`). -/
structure DestinationEscrowData where
  creator : Address
  recipient : Address
  hashed_secret : H32
  token : Address
  amount : Int
  security_deposit : Int
  withdrawal_start : Nat
  public_withdrawal_start : Nat
  cancellation_start : Nat
  funds_withdrawn : Bool
  cancelled : Bool
  part_index : Nat
  total_parts : Nat
  is_part_fill : Bool
deriving Repr, DecidableEq

/-- Storage of the `HashLockedEscrowFactory` contract, one field per
`DataKey` variant, plus the contract's own address. -/
structure FactoryState where
  nativeToken : Address
  escrowCounter : Nat
  srcEscrows : KV Address SourceEscrowData
  dstEscrows : KV Address DestinationEscrowData
  escrowExists : KV Address Bool
  userEscrows : KV Address (List Address)
  allowances : KV (Address × Address) Int
  partFillsUsed : KV (H32 × Nat) Bool
  partFillsCount : KV H32 Nat
  contractAddr : Address
deriving Repr, DecidableEq

/-- The factory state right after `initialize(native_token)`. -/
def initFactory (native contractAddr : Address) : FactoryState :=
  { nativeToken := native
    escrowCounter := 0
    srcEscrows := []
    dstEscrows := []
    escrowExists := []
    userEscrows := []
    allowances := []
    partFillsUsed := []
    partFillsCount := []
    contractAddr := contractAddr }

/-- Every `panic!` site of the three contracts, by message. -/
inductive Err where
  | invalidAmount
  | invalidTimeWindow
  | insufficientAllowance
  | invalidAddress
  | alreadyWithdrawn
  | alreadyCancelled
  | withdrawalNotStarted
  | withdrawalEnded
  | privateWindowOnly
  | invalidSecret
  | usePlainWithdraw
  | invalidMerkleProof
  | cancellationNotStarted
  | privateCancellationEnded
  | unauthorized
  | rescueNotAvailable
  | invalidPartIndex
  | partAlreadyUsed
  | totalPartsZero
  | partAlreadyFilled
  | partNotFilled
  | partAlreadyCancelled
  | onlyMaker
  | partNotFound
  | proofRequired
  | noEscrows
deriving Repr, DecidableEq

/-- Result of a successful factory call: return value, post state, the token
transfers performed, and the principals whose authorization was required. -/
structure Out (α : Type) where
  ret : α
  st : FactoryState
  transfers : List Transfer
  auths : List Address
deriving Repr, DecidableEq

/-- Security deposit constant (`DEPOSIT_AMOUNT = 1_000_000` stroops). -/
def DEPOSIT_AMOUNT : Int := 1000000

/-- Rescue grace period (`RESCUE_DELAY = 7 * 24 * 60 * 60` seconds). -/
def RESCUE_DELAY : Nat := 604800

/-! ## Factory contract (`HashLockedEscrowFactory`, hello-world/src/lib.rs) -/

namespace Factory

/-- `generate_leaf`: SHA-256 over `be64(index) ++ secret_hash`. -/
def generate_leaf (C : Crypto) (index : Nat) (secret_hash : H32) : H32 :=
  C.leafHash index secret_hash

/-- `hash_pair`: SHA-256 over the 64-byte concatenation of the two hashes. -/
def hash_pair (C : Crypto) (a b : H32) : H32 :=
  C.pairHash a b

/-- `verify_merkle_proof`: fold the proof into the running hash, smaller
value hashed first (byte-lexicographic order of 32-byte arrays equals
numeric order of their big-endian values). -/
def verify_merkle_proof (C : Crypto) (proof : List H32) (root leaf : H32) : Bool :=
  (proof.foldl
    (fun computed el =>
      if computed ≤ el then hash_pair C computed el else hash_pair C el computed)
    leaf) = root

/-- `allowance(owner, spender)`. -/
def allowance (s : FactoryState) (owner spender : Address) : Int :=
  (KV.find s.allowances (owner, spender)).getD 0

/-- `approve(caller, amount)`: stores the allowance for
`(caller, current_contract_address)` verbatim. -/
def approve (s : FactoryState) (caller : Address) (amount : Int) :
    Except Err (Out Unit) :=
  .ok { ret := ()
        st := { s with
          allowances := KV.set s.allowances (caller, s.contractAddr) amount }
        transfers := []
        auths := [caller] }

/-- `create_src_escrow` (full fill only). -/
def create_src_escrow (s : FactoryState) (creator : Address) (hashed_secret : H32)
    (recipient buyer : Address) (token_amount : Int)
    (withdrawal_start public_withdrawal_start cancellation_start
     public_cancellation_start : Nat) :
    Except Err (Out Address) :=
  if token_amount ≤ 0 then .error .invalidAmount
  else if public_withdrawal_start ≤ withdrawal_start
      ∨ cancellation_start ≤ public_withdrawal_start
      ∨ public_cancellation_start ≤ cancellation_start then
    .error .invalidTimeWindow
  else
    let current_allowance := allowance s buyer s.contractAddr
    if current_allowance < token_amount then .error .insufficientAllowance
    else
      let s1 := { s with
        allowances := KV.set s.allowances (buyer, s.contractAddr)
          (current_allowance - token_amount)
        escrowCounter := s.escrowCounter + 1 }
      let final_addr := s1.contractAddr
      let ed : SourceEscrowData :=
        { creator := buyer
          recipient := recipient
          hashed_secret := hashed_secret
          token := s1.nativeToken
          amount := token_amount
          security_deposit := DEPOSIT_AMOUNT
          withdrawal_start := withdrawal_start
          public_withdrawal_start := public_withdrawal_start
          cancellation_start := cancellation_start
          public_cancellation_start := public_cancellation_start
          funds_withdrawn := false
          cancelled := false
          part_index := 0
          total_parts := 1
          is_part_fill := false }
      let s2 := { s1 with
        srcEscrows := KV.set s1.srcEscrows final_addr ed
        escrowExists := KV.set s1.escrowExists final_addr true }
      let ue := (KV.find s2.userEscrows buyer).getD []
      let s3 := { s2 with
        userEscrows := KV.set s2.userEscrows buyer (ue ++ [final_addr]) }
      .ok { ret := final_addr
            st := s3
            transfers :=
              [ { token := s.nativeToken, src := buyer, dst := s.contractAddr
                  amount := token_amount, viaAllowance := true }
              , { token := s.nativeToken, src := creator, dst := s.contractAddr
                  amount := DEPOSIT_AMOUNT, viaAllowance := false } ]
            auths := [creator] }

/-- `create_dst_escrow` (full fill only). -/
def create_dst_escrow (s : FactoryState) (creator : Address) (hashed_secret : H32)
    (recipient : Address) (token_amount : Int)
    (withdrawal_start public_withdrawal_start cancellation_start : Nat) :
    Except Err (Out Address) :=
  if token_amount ≤ 0 then .error .invalidAmount
  else if public_withdrawal_start ≤ withdrawal_start
      ∨ cancellation_start ≤ public_withdrawal_start then
    .error .invalidTimeWindow
  else
    let s1 := { s with escrowCounter := s.escrowCounter + 1 }
    let final_addr := s1.contractAddr
    let ed : DestinationEscrowData :=
      { creator := creator
        recipient := recipient
        hashed_secret := hashed_secret
        token := s1.nativeToken
        amount := token_amount
        security_deposit := DEPOSIT_AMOUNT
        withdrawal_start := withdrawal_start
        public_withdrawal_start := public_withdrawal_start
        cancellation_start := cancellation_start
        funds_withdrawn := false
        cancelled := false
        part_index := 0
        total_parts := 1
        is_part_fill := false }
    let s2 := { s1 with
      dstEscrows := KV.set s1.dstEscrows final_addr ed
      escrowExists := KV.set s1.escrowExists final_addr true }
    let ue := (KV.find s2.userEscrows creator).getD []
    let s3 := { s2 with
      userEscrows := KV.set s2.userEscrows creator (ue ++ [final_addr]) }
    .ok { ret := final_addr
          st := s3
          transfers :=
            [ { token := s.nativeToken, src := creator, dst := s.contractAddr
                amount := token_amount, viaAllowance := false }
            , { token := s.nativeToken, src := creator, dst := s.contractAddr
                amount := DEPOSIT_AMOUNT, viaAllowance := false } ]
          auths := [creator] }

/-- `withdraw_src_escrow`: note that on success BOTH the principal and the
security deposit are transferred to the CALLER (lines 407-411 of the
source). -/
def withdraw_src_escrow (C : Crypto) (s : FactoryState) (now : Nat)
    (caller escrow_address : Address) (secret : Nat) :
    Except Err (Out Unit) :=
  match KV.find s.srcEscrows escrow_address with
  | none => .error .invalidAddress
  | some ed =>
    if ed.funds_withdrawn then .error .alreadyWithdrawn
    else if ed.cancelled then .error .alreadyCancelled
    else if now < ed.withdrawal_start then .error .withdrawalNotStarted
    else if ed.cancellation_start ≤ now then .error .withdrawalEnded
    else if now < ed.public_withdrawal_start ∧ caller ≠ ed.recipient then
      .error .privateWindowOnly
    else if C.sha secret ≠ ed.hashed_secret then .error .invalidSecret
    else
      let ed2 := { ed with funds_withdrawn := true }
      .ok { ret := ()
            st := { s with srcEscrows := KV.set s.srcEscrows escrow_address ed2 }
            transfers :=
              [ { token := ed.token, src := s.contractAddr, dst := caller
                  amount := ed.amount, viaAllowance := false }
              , { token := ed.token, src := s.contractAddr, dst := caller
                  amount := ed.security_deposit, viaAllowance := false } ]
            auths := [caller] }

/-- `withdraw_src_escrow_with_proof`: merkle variant for partial fills; the
fund movement is identical to `withdraw_src_escrow` (both legs to the
caller). -/
def withdraw_src_escrow_with_proof (C : Crypto) (s : FactoryState) (now : Nat)
    (caller escrow_address : Address) (secret : Nat) (merkle_proof : List H32) :
    Except Err (Out Unit) :=
  match KV.find s.srcEscrows escrow_address with
  | none => .error .invalidAddress
  | some ed =>
    if ed.funds_withdrawn then .error .alreadyWithdrawn
    else if ed.cancelled then .error .alreadyCancelled
    else if now < ed.withdrawal_start then .error .withdrawalNotStarted
    else if ed.cancellation_start ≤ now then .error .withdrawalEnded
    else if ed.is_part_fill = false then .error .usePlainWithdraw
    else if now < ed.public_withdrawal_start ∧ caller ≠ ed.recipient then
      .error .privateWindowOnly
    else
      let merkle_root := ed.hashed_secret
      let leaf := generate_leaf C ed.part_index (C.sha secret)
      if verify_merkle_proof C merkle_proof merkle_root leaf = false then
        .error .invalidMerkleProof
      else
        let ed2 := { ed with funds_withdrawn := true }
        .ok { ret := ()
              st := { s with srcEscrows := KV.set s.srcEscrows escrow_address ed2 }
              transfers :=
                [ { token := ed.token, src := s.contractAddr, dst := caller
                    amount := ed.amount, viaAllowance := false }
                , { token := ed.token, src := s.contractAddr, dst := caller
                    amount := ed.security_deposit, viaAllowance := false } ]
              auths := [caller] }

/-- `withdraw_dst_escrow`: principal to the RECIPIENT, deposit to the
caller. -/
def withdraw_dst_escrow (C : Crypto) (s : FactoryState) (now : Nat)
    (caller escrow_address : Address) (secret : Nat) :
    Except Err (Out Unit) :=
  match KV.find s.dstEscrows escrow_address with
  | none => .error .invalidAddress
  | some ed =>
    if ed.funds_withdrawn then .error .alreadyWithdrawn
    else if ed.cancelled then .error .alreadyCancelled
    else if now < ed.withdrawal_start then .error .withdrawalNotStarted
    else if ed.cancellation_start ≤ now then .error .withdrawalEnded
    else if now < ed.public_withdrawal_start ∧ caller ≠ ed.recipient
        ∧ caller ≠ ed.creator then
      .error .privateWindowOnly
    else if C.sha secret ≠ ed.hashed_secret then .error .invalidSecret
    else
      let ed2 := { ed with funds_withdrawn := true }
      .ok { ret := ()
            st := { s with dstEscrows := KV.set s.dstEscrows escrow_address ed2 }
            transfers :=
              [ { token := ed.token, src := s.contractAddr, dst := ed.recipient
                  amount := ed.amount, viaAllowance := false }
              , { token := ed.token, src := s.contractAddr, dst := caller
                  amount := ed.security_deposit, viaAllowance := false } ]
            auths := [caller] }

/-- `withdraw_dst_escrow_with_proof`. -/
def withdraw_dst_escrow_with_proof (C : Crypto) (s : FactoryState) (now : Nat)
    (caller escrow_address : Address) (secret : Nat) (merkle_proof : List H32) :
    Except Err (Out Unit) :=
  match KV.find s.dstEscrows escrow_address with
  | none => .error .invalidAddress
  | some ed =>
    if ed.funds_withdrawn then .error .alreadyWithdrawn
    else if ed.cancelled then .error .alreadyCancelled
    else if now < ed.withdrawal_start then .error .withdrawalNotStarted
    else if ed.cancellation_start ≤ now then .error .withdrawalEnded
    else if ed.is_part_fill = false then .error .usePlainWithdraw
    else if now < ed.public_withdrawal_start ∧ caller ≠ ed.recipient
        ∧ caller ≠ ed.creator then
      .error .privateWindowOnly
    else
      let merkle_root := ed.hashed_secret
      let leaf := generate_leaf C ed.part_index (C.sha secret)
      if verify_merkle_proof C merkle_proof merkle_root leaf = false then
        .error .invalidMerkleProof
      else
        let ed2 := { ed with funds_withdrawn := true }
        .ok { ret := ()
              st := { s with dstEscrows := KV.set s.dstEscrows escrow_address ed2 }
              transfers :=
                [ { token := ed.token, src := s.contractAddr, dst := ed.recipient
                    amount := ed.amount, viaAllowance := false }
                , { token := ed.token, src := s.contractAddr, dst := caller
                    amount := ed.security_deposit, viaAllowance := false } ]
              auths := [caller] }

/-- `cancel_src_escrow`: only the creator, only inside
`[cancellation_start, public_cancellation_start)`. -/
def cancel_src_escrow (s : FactoryState) (now : Nat)
    (caller escrow_address : Address) :
    Except Err (Out Unit) :=
  match KV.find s.srcEscrows escrow_address with
  | none => .error .invalidAddress
  | some ed =>
    if ed.funds_withdrawn then .error .alreadyWithdrawn
    else if ed.cancelled then .error .alreadyCancelled
    else if now < ed.cancellation_start then .error .cancellationNotStarted
    else if ed.public_cancellation_start ≤ now then .error .privateCancellationEnded
    else if caller ≠ ed.creator then .error .unauthorized
    else
      let ed2 := { ed with cancelled := true }
      .ok { ret := ()
            st := { s with srcEscrows := KV.set s.srcEscrows escrow_address ed2 }
            transfers :=
              [ { token := ed.token, src := s.contractAddr, dst := ed.creator
                  amount := ed.amount, viaAllowance := false }
              , { token := ed.token, src := s.contractAddr, dst := ed.creator
                  amount := ed.security_deposit, viaAllowance := false } ]
            auths := [caller] }

/-- `cancel_dst_escrow`: only the creator, any time from
`cancellation_start` on. -/
def cancel_dst_escrow (s : FactoryState) (now : Nat)
    (caller escrow_address : Address) :
    Except Err (Out Unit) :=
  match KV.find s.dstEscrows escrow_address with
  | none => .error .invalidAddress
  | some ed =>
    if ed.funds_withdrawn then .error .alreadyWithdrawn
    else if ed.cancelled then .error .alreadyCancelled
    else if now < ed.cancellation_start then .error .cancellationNotStarted
    else if caller ≠ ed.creator then .error .unauthorized
    else
      let ed2 := { ed with cancelled := true }
      .ok { ret := ()
            st := { s with dstEscrows := KV.set s.dstEscrows escrow_address ed2 }
            transfers :=
              [ { token := ed.token, src := s.contractAddr, dst := ed.creator
                  amount := ed.amount, viaAllowance := false }
              , { token := ed.token, src := s.contractAddr, dst := ed.creator
                  amount := ed.security_deposit, viaAllowance := false } ]
            auths := [caller] }

/-- `rescue_src_escrow`: recipient only, after
`public_cancellation_start + RESCUE_DELAY`. -/
def rescue_src_escrow (s : FactoryState) (now : Nat)
    (caller escrow_address : Address) :
    Except Err (Out Unit) :=
  match KV.find s.srcEscrows escrow_address with
  | none => .error .invalidAddress
  | some ed =>
    if ed.funds_withdrawn then .error .alreadyWithdrawn
    else if ed.cancelled then .error .alreadyCancelled
    else if now < ed.public_cancellation_start + RESCUE_DELAY then
      .error .rescueNotAvailable
    else if caller ≠ ed.recipient then .error .unauthorized
    else
      let ed2 := { ed with funds_withdrawn := true }
      .ok { ret := ()
            st := { s with srcEscrows := KV.set s.srcEscrows escrow_address ed2 }
            transfers :=
              [ { token := ed.token, src := s.contractAddr, dst := ed.recipient
                  amount := ed.amount, viaAllowance := false }
              , { token := ed.token, src := s.contractAddr, dst := ed.creator
                  amount := ed.security_deposit, viaAllowance := false } ]
            auths := [caller] }

/-- `rescue_dst_escrow`: creator only, after
`cancellation_start + RESCUE_DELAY`. -/
def rescue_dst_escrow (s : FactoryState) (now : Nat)
    (caller escrow_address : Address) :
    Except Err (Out Unit) :=
  match KV.find s.dstEscrows escrow_address with
  | none => .error .invalidAddress
  | some ed =>
    if ed.funds_withdrawn then .error .alreadyWithdrawn
    else if ed.cancelled then .error .alreadyCancelled
    else if now < ed.cancellation_start + RESCUE_DELAY then
      .error .rescueNotAvailable
    else if caller ≠ ed.creator then .error .unauthorized
    else
      let ed2 := { ed with funds_withdrawn := true }
      .ok { ret := ()
            st := { s with dstEscrows := KV.set s.dstEscrows escrow_address ed2 }
            transfers :=
              [ { token := ed.token, src := s.contractAddr, dst := ed.creator
                  amount := ed.amount, viaAllowance := false }
              , { token := ed.token, src := s.contractAddr, dst := ed.creator
                  amount := ed.security_deposit, viaAllowance := false } ]
            auths := [caller] }

/-- `create_src_escrow_partial` (the name here avoids a reserved word).
Order of effects follows the source: amount and window validation, the
partial-fill usage bookkeeping, allowance check (trusted when the creator
differs from the buyer, i.e. the LOP case), counter bump, record store. -/
def create_src_escrow_pf (s : FactoryState) (creator : Address) (hashed_secret : H32)
    (recipient buyer : Address) (token_amount : Int)
    (withdrawal_start public_withdrawal_start cancellation_start : Nat)
    (part_index : Nat) (total_parts : Nat) :
    Except Err (Out Address) :=
  if token_amount ≤ 0 then .error .invalidAmount
  else if public_withdrawal_start ≤ withdrawal_start
      ∨ cancellation_start ≤ public_withdrawal_start then
    .error .invalidTimeWindow
  else
    let is_pf := 1 < total_parts
    if is_pf ∧ total_parts ≤ part_index then .error .invalidPartIndex
    else if is_pf ∧ ((KV.find s.partFillsUsed (hashed_secret, part_index)).getD false) = true then
      .error .partAlreadyUsed
    else
      let s1 :=
        if is_pf then
          { s with
            partFillsUsed := KV.set s.partFillsUsed (hashed_secret, part_index) true
            partFillsCount := KV.set s.partFillsCount hashed_secret
              (((KV.find s.partFillsCount hashed_secret).getD 0) + 1) }
        else s
      let current_allowance :=
        if creator = buyer then allowance s1 buyer s1.contractAddr else token_amount
      if current_allowance < token_amount then .error .insufficientAllowance
      else
        let s2 :=
          if creator = buyer then
            { s1 with
              allowances := KV.set s1.allowances (buyer, s1.contractAddr)
                (current_allowance - token_amount) }
          else s1
        let s3 := { s2 with escrowCounter := s2.escrowCounter + 1 }
        let final_addr := s3.contractAddr
        let ed : SourceEscrowData :=
          { creator := buyer
            recipient := recipient
            hashed_secret := hashed_secret
            token := s3.nativeToken
            amount := token_amount
            security_deposit := DEPOSIT_AMOUNT
            withdrawal_start := withdrawal_start
            public_withdrawal_start := public_withdrawal_start
            cancellation_start := cancellation_start
            public_cancellation_start := cancellation_start + 3600
            funds_withdrawn := false
            cancelled := false
            part_index := part_index
            total_parts := total_parts
            is_part_fill := is_pf }
        let s4 := { s3 with
          srcEscrows := KV.set s3.srcEscrows final_addr ed
          escrowExists := KV.set s3.escrowExists final_addr true }
        let ue := (KV.find s4.userEscrows buyer).getD []
        let s5 := { s4 with
          userEscrows := KV.set s4.userEscrows buyer (ue ++ [final_addr]) }
        .ok { ret := final_addr
              st := s5
              transfers :=
                [ { token := s.nativeToken, src := buyer, dst := final_addr
                    amount := token_amount, viaAllowance := true }
                , { token := s.nativeToken, src := creator, dst := final_addr
                    amount := DEPOSIT_AMOUNT, viaAllowance := false } ]
              auths := [creator] }

/-- `create_dst_escrow_partial` (the name here avoids a reserved word). -/
def create_dst_escrow_pf (s : FactoryState) (creator : Address) (hashed_secret : H32)
    (recipient : Address) (token_amount : Int)
    (withdrawal_start public_withdrawal_start cancellation_start : Nat)
    (part_index : Nat) (total_parts : Nat) :
    Except Err (Out Address) :=
  if token_amount ≤ 0 then .error .invalidAmount
  else if public_withdrawal_start ≤ withdrawal_start
      ∨ cancellation_start ≤ public_withdrawal_start then
    .error .invalidTimeWindow
  else
    let is_pf := 1 < total_parts
    if is_pf ∧ total_parts ≤ part_index then .error .invalidPartIndex
    else
      let s1 := { s with escrowCounter := s.escrowCounter + 1 }
      let final_addr := s1.contractAddr
      let ed : DestinationEscrowData :=
        { creator := creator
          recipient := recipient
          hashed_secret := hashed_secret
          token := s1.nativeToken
          amount := token_amount
          security_deposit := DEPOSIT_AMOUNT
          withdrawal_start := withdrawal_start
          public_withdrawal_start := public_withdrawal_start
          cancellation_start := cancellation_start
          funds_withdrawn := false
          cancelled := false
          part_index := part_index
          total_parts := total_parts
          is_part_fill := is_pf }
      let s2 := { s1 with
        dstEscrows := KV.set s1.dstEscrows final_addr ed
        escrowExists := KV.set s1.escrowExists final_addr true }
      let ue := (KV.find s2.userEscrows creator).getD []
      let s3 := { s2 with
        userEscrows := KV.set s2.userEscrows creator (ue ++ [final_addr]) }
      .ok { ret := final_addr
            st := s3
            transfers :=
              [ { token := s.nativeToken, src := creator, dst := final_addr
                  amount := token_amount, viaAllowance := false }
              , { token := s.nativeToken, src := creator, dst := final_addr
                  amount := DEPOSIT_AMOUNT, viaAllowance := false } ]
            auths := [creator] }

/-- `get_src_escrow`. -/
def get_src_escrow (s : FactoryState) (escrow_address : Address) :
    Except Err SourceEscrowData :=
  match KV.find s.srcEscrows escrow_address with
  | none => .error .invalidAddress
  | some ed => .ok ed

/-- `get_dst_escrow`. -/
def get_dst_escrow (s : FactoryState) (escrow_address : Address) :
    Except Err DestinationEscrowData :=
  match KV.find s.dstEscrows escrow_address with
  | none => .error .invalidAddress
  | some ed => .ok ed

/-- `get_user_escrows`. -/
def get_user_escrows (s : FactoryState) (user : Address) : List Address :=
  (KV.find s.userEscrows user).getD []

end Factory

/-! ## Factory operation traces -/

/-- One invocation of a mutating factory entry point, with the arguments the
environment supplies (including the ledger timestamp for the time-gated
ones). -/
inductive FOp where
  | createSrc (creator : Address) (hs : H32) (recipient buyer : Address)
      (amt : Int) (w pw c pc : Nat)
  | createDst (creator : Address) (hs : H32) (recipient : Address)
      (amt : Int) (w pw c : Nat)
  | createSrcPf (creator : Address) (hs : H32) (recipient buyer : Address)
      (amt : Int) (w pw c : Nat) (pi tp : Nat)
  | createDstPf (creator : Address) (hs : H32) (recipient : Address)
      (amt : Int) (w pw c : Nat) (pi tp : Nat)
  | withdrawSrc (now : Nat) (caller addr : Address) (secret : Nat)
  | withdrawSrcProof (now : Nat) (caller addr : Address) (secret : Nat)
      (proof : List H32)
  | withdrawDst (now : Nat) (caller addr : Address) (secret : Nat)
  | withdrawDstProof (now : Nat) (caller addr : Address) (secret : Nat)
      (proof : List H32)
  | cancelSrc (now : Nat) (caller addr : Address)
  | cancelDst (now : Nat) (caller addr : Address)
  | rescueSrc (now : Nat) (caller addr : Address)
  | rescueDst (now : Nat) (caller addr : Address)
  | approveF (caller : Address) (amt : Int)

/-- Run one factory entry point; a panic (error) leaves the chain state
untouched. -/
def applyFOp (C : Crypto) (s : FactoryState) : FOp → FactoryState
  | .createSrc cr hs r b amt w pw c pc =>
    match Factory.create_src_escrow s cr hs r b amt w pw c pc with
    | .ok o => o.st
    | .error _ => s
  | .createDst cr hs r amt w pw c =>
    match Factory.create_dst_escrow s cr hs r amt w pw c with
    | .ok o => o.st
    | .error _ => s
  | .createSrcPf cr hs r b amt w pw c pi tp =>
    match Factory.create_src_escrow_pf s cr hs r b amt w pw c pi tp with
    | .ok o => o.st
    | .error _ => s
  | .createDstPf cr hs r amt w pw c pi tp =>
    match Factory.create_dst_escrow_pf s cr hs r amt w pw c pi tp with
    | .ok o => o.st
    | .error _ => s
  | .withdrawSrc now caller addr secret =>
    match Factory.withdraw_src_escrow C s now caller addr secret with
    | .ok o => o.st
    | .error _ => s
  | .withdrawSrcProof now caller addr secret proof =>
    match Factory.withdraw_src_escrow_with_proof C s now caller addr secret proof with
    | .ok o => o.st
    | .error _ => s
  | .withdrawDst now caller addr secret =>
    match Factory.withdraw_dst_escrow C s now caller addr secret with
    | .ok o => o.st
    | .error _ => s
  | .withdrawDstProof now caller addr secret proof =>
    match Factory.withdraw_dst_escrow_with_proof C s now caller addr secret proof with
    | .ok o => o.st
    | .error _ => s
  | .cancelSrc now caller addr =>
    match Factory.cancel_src_escrow s now caller addr with
    | .ok o => o.st
    | .error _ => s
  | .cancelDst now caller addr =>
    match Factory.cancel_dst_escrow s now caller addr with
    | .ok o => o.st
    | .error _ => s
  | .rescueSrc now caller addr =>
    match Factory.rescue_src_escrow s now caller addr with
    | .ok o => o.st
    | .error _ => s
  | .rescueDst now caller addr =>
    match Factory.rescue_dst_escrow s now caller addr with
    | .ok o => o.st
    | .error _ => s
  | .approveF caller amt =>
    match Factory.approve s caller amt with
    | .ok o => o.st
    | .error _ => s

/-- Factory states reachable from a freshly initialized factory by any
sequence of entry-point invocations. -/
inductive FReachable (C : Crypto) (native ca : Address) : FactoryState → Prop where
  | init : FReachable C native ca (initFactory native ca)
  | step {s : FactoryState} (op : FOp) :
      FReachable C native ca s → FReachable C native ca (applyFOp C s op)

/-- Well-formedness of one stored source escrow record: the terminal flags
are mutually exclusive and the four time boundaries are strictly ordered. -/
abbrev srcWF (ed : SourceEscrowData) : Prop :=
  (ed.funds_withdrawn = false ∨ ed.cancelled = false)
  ∧ ed.withdrawal_start < ed.public_withdrawal_start
  ∧ ed.public_withdrawal_start < ed.cancellation_start
  ∧ ed.cancellation_start < ed.public_cancellation_start

/-- Well-formedness of one stored destination escrow record. -/
abbrev dstWF (ed : DestinationEscrowData) : Prop :=
  (ed.funds_withdrawn = false ∨ ed.cancelled = false)
  ∧ ed.withdrawal_start < ed.public_withdrawal_start
  ∧ ed.public_withdrawal_start < ed.cancellation_start

/-- Every escrow record held in storage is well-formed. -/
abbrev StateWF (s : FactoryState) : Prop :=
  (∀ a ed, KV.find s.srcEscrows a = some ed → srcWF ed)
  ∧ (∀ a ed, KV.find s.dstEscrows a = some ed → dstWF ed)

/-- Decidable success test for a contract call. -/
def isOk {α : Type} : Except Err α → Bool
  | .ok _ => true
  | .error _ => false

/-! ## Limit order protocol (`SimpleLimitOrderProtocol`) -/

/-- `FilledOrder` record of the LOP contract. -/
structure FilledOrder where
  order_hash : H32
  maker : Address
  recipient : Address
  escrow_address : Address
  part_index : Nat
  total_parts : Nat
  is_active : Bool
deriving Repr, DecidableEq

/-- Storage of the LOP contract, one field per `DataKey` variant, plus the
contract's own address.  The factory address field of the real storage is
implicit: the composed factory state is passed alongside. -/
structure LopState where
  filledOrders : KV H32 (List FilledOrder)
  partsFilled : KV (H32 × Nat) Bool
  filledSegmentsCount : KV H32 Nat
  userFilledOrders : KV Address (List H32)
  allowances : KV (Address × Address) Int
  lopAddr : Address
deriving Repr, DecidableEq

/-- The LOP state right after `initialize`. -/
def initLop (lopAddr : Address) : LopState :=
  { filledOrders := []
    partsFilled := []
    filledSegmentsCount := []
    userFilledOrders := []
    allowances := []
    lopAddr := lopAddr }

/-- Result of a successful call that touches both the LOP and the factory. -/
structure OutLF (α : Type) where
  ret : α
  lop : LopState
  fac : FactoryState
  transfers : List Transfer
  auths : List Address
deriving Repr, DecidableEq

namespace Lop

/-- LOP `allowance(owner, spender)`. -/
def allowance (L : LopState) (owner spender : Address) : Int :=
  (KV.find L.allowances (owner, spender)).getD 0

/-- LOP `approve(caller, amount)`: stores the allowance for
`(caller, current_contract_address)` verbatim. -/
def approve (L : LopState) (caller : Address) (amount : Int) :
    Except Err (LopState × List Address) :=
  .ok ({ L with allowances := KV.set L.allowances (caller, L.lopAddr) amount },
       [caller])

/-- `fill_order`: validations, the filled-part guard, the allowance debit,
then escrow creation through the factory (`create_src_escrow_partial` with
`creator := LOP`, `buyer := maker`,
`cancellation_start := withdrawal_start + 86400`), then bookkeeping.
No `require_auth` occurs in the LOP itself; the factory requires
authorization of its direct invoker, the LOP contract. -/
def fill_order (L : LopState) (F : FactoryState) (order_hash : H32)
    (maker recipient : Address) (token_amount : Int) (hashed_secret : H32)
    (withdrawal_start public_withdrawal_start : Nat)
    (part_index : Nat) (total_parts : Nat) :
    Except Err (OutLF Address) :=
  if total_parts = 0 then .error .totalPartsZero
  else if total_parts ≤ part_index then .error .invalidPartIndex
  else if token_amount ≤ 0 then .error .invalidAmount
  else if ((KV.find L.partsFilled (order_hash, part_index)).getD false) = true then
    .error .partAlreadyFilled
  else
    let current_allowance := allowance L maker L.lopAddr
    if current_allowance < token_amount then .error .insufficientAllowance
    else
      let L1 := { L with
        allowances := KV.set L.allowances (maker, L.lopAddr)
          (current_allowance - token_amount) }
      match Factory.create_src_escrow_pf F L1.lopAddr hashed_secret recipient maker
          token_amount withdrawal_start public_withdrawal_start
          (withdrawal_start + 86400) part_index total_parts with
      | .error e => .error e
      | .ok fo =>
        let escrow_address := fo.ret
        let filled : FilledOrder :=
          { order_hash := order_hash
            maker := maker
            recipient := recipient
            escrow_address := escrow_address
            part_index := part_index
            total_parts := total_parts
            is_active := true }
        let prev := (KV.find L1.filledOrders order_hash).getD []
        let L2 := { L1 with
          filledOrders := KV.set L1.filledOrders order_hash (prev ++ [filled])
          partsFilled := KV.set L1.partsFilled (order_hash, part_index) true }
        let current_count := (KV.find L2.filledSegmentsCount order_hash).getD 0
        let L3 := { L2 with
          filledSegmentsCount := KV.set L2.filledSegmentsCount order_hash
            (current_count + 1) }
        let L4 :=
          if current_count = 0 then
            { L3 with
              userFilledOrders := KV.set L3.userFilledOrders maker
                (((KV.find L3.userFilledOrders maker).getD []) ++ [order_hash]) }
          else L3
        .ok { ret := escrow_address
              lop := L4
              fac := fo.st
              transfers := fo.transfers
              auths := fo.auths }

/-- The body of `cancel_order`'s scan loop: walk the filled-order list, act
on the first entry with the requested part index (check activity and maker,
forward the cancellation to the factory, deactivate), leave the rest
untouched.  Returns `none` when no entry matches (`found == false`). -/
def scanCancel (F : FactoryState) (now : Nat) (caller : Address) (p : Nat) :
    List FilledOrder → Except Err (Option (List FilledOrder × Out Unit))
  | [] => .ok none
  | od :: rest =>
    if od.part_index = p then
      if od.is_active = false then .error .partAlreadyCancelled
      else if od.maker ≠ caller then .error .onlyMaker
      else
        match Factory.cancel_src_escrow F now caller od.escrow_address with
        | .error e => .error e
        | .ok fo => .ok (some ({ od with is_active := false } :: rest, fo))
    else
      match scanCancel F now caller p rest with
      | .error e => .error e
      | .ok none => .ok none
      | .ok (some (rest', fo)) => .ok (some (od :: rest', fo))

/-- LOP `cancel_order(caller, order_hash, part_index)`. -/
def cancel_order (L : LopState) (F : FactoryState) (now : Nat) (caller : Address)
    (order_hash : H32) (part_index : Nat) :
    Except Err (OutLF Unit) :=
  if ((KV.find L.partsFilled (order_hash, part_index)).getD false) = false then
    .error .partNotFilled
  else
    match scanCancel F now caller part_index
        ((KV.find L.filledOrders order_hash).getD []) with
    | .error e => .error e
    | .ok none => .error .partNotFound
    | .ok (some (orders2, fo)) =>
      .ok { ret := ()
            lop := { L with filledOrders := KV.set L.filledOrders order_hash orders2 }
            fac := fo.st
            transfers := fo.transfers
            auths := caller :: fo.auths }

end Lop

/-- One invocation of a mutating LOP entry point (`initialize` aside). -/
inductive LOp where
  | approveL (caller : Address) (amt : Int)
  | fill (oh : H32) (maker recipient : Address) (amt : Int) (hs : H32)
      (w pw : Nat) (pi tp : Nat)
  | cancelO (now : Nat) (caller : Address) (oh : H32) (pi : Nat)

/-- Run one LOP entry point on the combined LOP-and-factory state; a panic
leaves both states untouched. -/
def applyLOp (st : LopState × FactoryState) : LOp → LopState × FactoryState
  | .approveL caller amt =>
    match Lop.approve st.1 caller amt with
    | .ok (L2, _) => (L2, st.2)
    | .error _ => st
  | .fill oh maker r amt hs w pw pi tp =>
    match Lop.fill_order st.1 st.2 oh maker r amt hs w pw pi tp with
    | .ok o => (o.lop, o.fac)
    | .error _ => st
  | .cancelO now caller oh pi =>
    match Lop.cancel_order st.1 st.2 now caller oh pi with
    | .ok o => (o.lop, o.fac)
    | .error _ => st

/-- Run a sequence of LOP entry points. -/
def runLOps (st : LopState × FactoryState) (ops : List LOp) :
    LopState × FactoryState :=
  ops.foldl applyLOp st

/-! ## Resolver contract (`SimpleResolver`, the SwapOrchestrator) -/

/-- Storage of the resolver contract that the claims depend on: the
configured owner.  (The LOP and factory contract addresses are modelled by
passing those contracts' states alongside.) -/
structure ResolverState where
  owner : Address
deriving Repr, DecidableEq

namespace Resolver

/-- `execute_cross_chain_swap`: owner-gated; fills the order through the LOP
with `public_withdrawal_start := withdrawal_start + 1800`. -/
def execute_cross_chain_swap (rs : ResolverState) (L : LopState) (F : FactoryState)
    (caller : Address) (order_hash : H32) (maker recipient : Address)
    (token_amount : Int) (hashed_secret : H32) (withdrawal_start : Nat)
    (part_index total_parts : Nat) :
    Except Err (OutLF Address) :=
  if caller ≠ rs.owner then .error .unauthorized
  else
    match Lop.fill_order L F order_hash maker recipient token_amount hashed_secret
        withdrawal_start (withdrawal_start + 1800) part_index total_parts with
    | .error e => .error e
    | .ok o => .ok { o with auths := caller :: o.auths }

/-- `complete_cross_chain_swap`: owner-gated; fetches the source escrow and
branches on `is_partial_fill` (merkle path needs a non-empty proof). -/
def complete_cross_chain_swap (rs : ResolverState) (C : Crypto) (F : FactoryState)
    (now : Nat) (caller escrow_address : Address) (secret : Nat)
    (part_index : Nat) (merkle_proof : List H32) :
    Except Err (Out Unit) :=
  if caller ≠ rs.owner then .error .unauthorized
  else
    match KV.find F.srcEscrows escrow_address with
    | none => .error .invalidAddress
    | some ed =>
      if ed.is_part_fill then
        if merkle_proof.length = 0 then .error .proofRequired
        else
          match Factory.withdraw_src_escrow_with_proof C F now caller escrow_address
              secret merkle_proof with
          | .error e => .error e
          | .ok o => .ok { o with auths := caller :: o.auths }
      else
        match Factory.withdraw_src_escrow C F now caller escrow_address secret with
        | .error e => .error e
        | .ok o => .ok { o with auths := caller :: o.auths }

/-- `withdraw_from_source_escrow`: NO owner comparison and NO
`require_auth` occur in this entry point (lines 234-266 of the resolver
source); it goes straight to the factory.  The `rs` parameter is the
resolver storage, which the body never reads. -/
def withdraw_from_source_escrow (rs : ResolverState) (C : Crypto) (F : FactoryState)
    (now : Nat) (caller escrow_address : Address) (secret : Nat)
    (part_index : Nat) (merkle_proof : List H32) :
    Except Err (Out Unit) :=
  match KV.find F.srcEscrows escrow_address with
  | none => .error .invalidAddress
  | some ed =>
    if ed.is_part_fill then
      if merkle_proof.length = 0 then .error .proofRequired
      else
        Factory.withdraw_src_escrow_with_proof C F now caller escrow_address
          secret merkle_proof
    else
      Factory.withdraw_src_escrow C F now caller escrow_address secret

/-- `withdraw_from_destination_escrow`: likewise, no owner comparison and no
`require_auth`. -/
def withdraw_from_destination_escrow (rs : ResolverState) (C : Crypto) (F : FactoryState)
    (now : Nat) (caller escrow_address : Address) (secret : Nat)
    (part_index : Nat) (merkle_proof : List H32) :
    Except Err (Out Unit) :=
  match KV.find F.dstEscrows escrow_address with
  | none => .error .invalidAddress
  | some ed =>
    if ed.is_part_fill then
      if merkle_proof.length = 0 then .error .proofRequired
      else
        Factory.withdraw_dst_escrow_with_proof C F now caller escrow_address
          secret merkle_proof
    else
      Factory.withdraw_dst_escrow C F now caller escrow_address secret

/-- `create_destination_escrow`: owner-gated; creates through the factory
and reads the new reference back from the tail of the creator's escrow
index. -/
def create_destination_escrow (rs : ResolverState) (F : FactoryState)
    (caller : Address) (hashed_secret : H32) (recipient : Address) (amount : Int)
    (withdrawal_start public_withdrawal_start cancellation_start : Nat)
    (part_index total_parts : Nat) :
    Except Err (Out Address) :=
  if caller ≠ rs.owner then .error .unauthorized
  else
    match Factory.create_dst_escrow_pf F caller hashed_secret recipient amount
        withdrawal_start public_withdrawal_start cancellation_start
        part_index total_parts with
    | .error e => .error e
    | .ok fo =>
      match (Factory.get_user_escrows fo.st caller).getLast? with
      | none => .error .noEscrows
      | some escrow_address =>
        .ok { ret := escrow_address
              st := fo.st
              transfers := fo.transfers
              auths := caller :: fo.auths }

/-- Resolver `cancel_order`: owner-gated; forwards to the LOP. -/
def cancel_order (rs : ResolverState) (L : LopState) (F : FactoryState)
    (now : Nat) (caller : Address) (order_hash : H32) (part_index : Nat) :
    Except Err (OutLF Unit) :=
  if caller ≠ rs.owner then .error .unauthorized
  else
    match Lop.cancel_order L F now caller order_hash part_index with
    | .error e => .error e
    | .ok o => .ok { o with auths := caller :: o.auths }

end Resolver

/-! ## Helper shapes for individual claims -/

/-- One source-escrow creation call, covering both entry points
(`create_src_escrow` and `create_src_escrow_partial`). -/
inductive SrcCreation where
  | full (creator : Address) (hs : H32) (recipient buyer : Address) (amt : Int)
      (w pw c pc : Nat)
  | pf (creator : Address) (hs : H32) (recipient buyer : Address) (amt : Int)
      (w pw c : Nat) (pi tp : Nat)

/-- Run one source-escrow creation call. -/
def runSrcCreation (s : FactoryState) : SrcCreation → Except Err (Out Address)
  | .full cr hs r b amt w pw c pc =>
    Factory.create_src_escrow s cr hs r b amt w pw c pc
  | .pf cr hs r b amt w pw c pi tp =>
    Factory.create_src_escrow_pf s cr hs r b amt w pw c pi tp

/-- The record a source-escrow creation stores, as a function of the
pre-call state (it depends on the state only through the native-token
address). -/
def mkSrcRecord (s : FactoryState) : SrcCreation → SourceEscrowData
  | .full _ hs r b amt w pw c pc =>
    { creator := b, recipient := r, hashed_secret := hs
      token := s.nativeToken, amount := amt, security_deposit := DEPOSIT_AMOUNT
      withdrawal_start := w, public_withdrawal_start := pw
      cancellation_start := c, public_cancellation_start := pc
      funds_withdrawn := false, cancelled := false
      part_index := 0, total_parts := 1, is_part_fill := false }
  | .pf _ hs r b amt w pw c pi tp =>
    { creator := b, recipient := r, hashed_secret := hs
      token := s.nativeToken, amount := amt, security_deposit := DEPOSIT_AMOUNT
      withdrawal_start := w, public_withdrawal_start := pw
      cancellation_start := c, public_cancellation_start := c + 3600
      funds_withdrawn := false, cancelled := false
      part_index := pi, total_parts := tp, is_part_fill := 1 < tp }

/-- Arguments of one `fill_order` pull. -/
structure FillArgs where
  oh : H32
  maker : Address
  recipient : Address
  amt : Int
  hs : H32
  w : Nat
  pw : Nat
  pi : Nat
  tp : Nat
deriving Repr, DecidableEq

/-- Run a sequence of `fill_order` calls, `none` as soon as one fails. -/
def runFills (st : LopState × FactoryState) :
    List FillArgs → Option (LopState × FactoryState)
  | [] => some st
  | f :: rest =>
    match Lop.fill_order st.1 st.2 f.oh f.maker f.recipient f.amt f.hs f.w f.pw
        f.pi f.tp with
    | .error _ => none
    | .ok o => runFills (o.lop, o.fac) rest

/-- Total amount pulled by a sequence of fills. -/
def sumFills (fs : List FillArgs) : Int :=
  (fs.map FillArgs.amt).sum

/-- Every allowance entry of the LOP is non-negative. -/
abbrev AllowancesNonNeg (L : LopState) : Prop :=
  ∀ o sp, 0 ≤ Lop.allowance L o sp

/-- The op is not an `approve` of a negative amount. -/
abbrev approveNonNeg : LOp → Prop
  | .approveL _ a => 0 ≤ a
  | _ => True

/-! ## Concrete instances used by witnesses and counterexamples -/

/-- A concrete hash interpretation, used only to instantiate theorems on
computable inputs. -/
def cSimple : Crypto :=
  { sha := fun n => n
    leafHash := fun _ h => h
    pairHash := fun a b => a + b }

/-- Trace state: allowance granted to the factory by address 3. -/
def wS1 : FactoryState := applyFOp cSimple (initFactory 9 7) (.approveF 3 100)

/-- Trace state: a full-fill source escrow created (buyer 3, recipient 2,
windows 100/200/300/400). -/
def wS2 : FactoryState :=
  applyFOp cSimple wS1 (.createSrc 5 42 2 3 10 100 200 300 400)

/-- Trace state: that escrow withdrawn at time 250 by the recipient. -/
def wS3 : FactoryState := applyFOp cSimple wS2 (.withdrawSrc 250 2 7 42)

/-- The terminal source record stored in `wS3`. -/
def wEd3 : SourceEscrowData := (KV.find wS3.srcEscrows 7).get (by decide)

/-- A fresh factory whose address-3 user holds a factory allowance of 100. -/
def c4S : FactoryState := { initFactory 9 7 with allowances := [((3, 7), 100)] }

/-- A full-fill source creation. -/
def c4K1 : SrcCreation := .full 5 42 2 3 10 100 200 300 400

/-- A partial-entry-point source creation (total_parts 1, LOP-style creator
distinct from buyer). -/
def c4K2 : SrcCreation := .pf 5 43 2 3 10 100 200 300 0 1

/-- Result of the first creation on `c4S`. -/
def c4O1 : Out Address := ((runSrcCreation c4S c4K1).toOption).get (by decide)

/-- Result of the second creation on the first's post-state. -/
def c4O2 : Out Address := ((runSrcCreation c4O1.st c4K2).toOption).get (by decide)

/-- The source record stored after the first creation. -/
def c9Ed : SourceEscrowData := (KV.find c4O1.st.srcEscrows 7).get (by decide)

/-- A successful public-window withdrawal by caller 6 (not the recipient 2). -/
def c1O : Out Unit :=
  ((Factory.withdraw_src_escrow cSimple c4O1.st 250 6 7 42).toOption).get (by decide)

/-- A factory holding a partial-fill source escrow (part 1 of 4). -/
def c1S2 : FactoryState :=
  (((Factory.create_src_escrow_pf (initFactory 9 7) 5 43 2 3 10 100 200 300 1 4).toOption).get
    (by decide)).st

/-- The partial-fill record stored in `c1S2`. -/
def c1Ed2 : SourceEscrowData := (KV.find c1S2.srcEscrows 7).get (by decide)

/-- A successful proof-based withdrawal by caller 6 (not the recipient 2). -/
def c1O2 : Out Unit :=
  ((Factory.withdraw_src_escrow_with_proof cSimple c1S2 250 6 7 43 []).toOption).get
    (by decide)

/-- LOP+factory state after approving 100 for maker 3 and filling
(orderHash 11, part 0). -/
def c6St : LopState × FactoryState :=
  applyLOp (applyLOp (initLop 8, initFactory 9 7) (.approveL 3 100))
    (.fill 11 3 2 10 42 100 200 0 1)

/-- LOP state with a negative allowance stored by `approve(3, -1)`. -/
def c7L : LopState :=
  (((Lop.approve (initLop 8) 3 (-1)).toOption).get (by decide)).1

/-- LOP state after `approve(3, 100)`. -/
def c10L : LopState :=
  (((Lop.approve (initLop 8) 3 100).toOption).get (by decide)).1

/-- Decidable equality of call results, so witnesses can be checked by
evaluation. -/
instance exceptDecEq {E A : Type} [DecidableEq E] [DecidableEq A] :
    DecidableEq (Except E A)
  | .ok a, .ok b =>
    if h : a = b then .isTrue (by rw [h])
    else .isFalse (by intro he; cases he; exact h rfl)
  | .ok _, .error _ => .isFalse (by intro h; exact Except.noConfusion h)
  | .error _, .ok _ => .isFalse (by intro h; exact Except.noConfusion h)
  | .error e, .error f =>
    if h : e = f then .isTrue (by rw [h])
    else .isFalse (by intro he; cases he; exact h rfl)

/-- The LOP-and-factory state used as the C6 pre-fill baseline: maker 3 has
approved 100. -/
def c6Pre : LopState × FactoryState :=
  applyLOp (initLop 8, initFactory 9 7) (.approveL 3 100)

/-- The successful first fill of (orderHash 11, part 0) on `c6Pre`. -/
def c6O : OutLF Address :=
  ((Lop.fill_order c6Pre.1 c6Pre.2 11 3 2 10 42 100 200 0 1).toOption).get
    (by decide)

/-- LOP state after `approve(3, 50)` on a fresh protocol. -/
def c7AL : LopState :=
  (((Lop.approve (initLop 8) 3 50).toOption).get (by decide)).1

/-- Two fills pulled from maker 3: amount 10 on order 11 and amount 5 on
order 12. -/
def c7Fills : List FillArgs :=
  [ { oh := 11, maker := 3, recipient := 2, amt := 10, hs := 42
      w := 100, pw := 200, pi := 0, tp := 1 }
  , { oh := 12, maker := 3, recipient := 2, amt := 5, hs := 43
      w := 100, pw := 200, pi := 0, tp := 1 } ]

/-- The combined state after running `c7Fills` from `c7AL`. -/
def c7St2 : LopState × FactoryState :=
  (runFills (c7AL, initFactory 9 7) c7Fills).get (by decide)

/-! ## Helper lemmas -/

/-- Lookup after an overwriting store. -/
theorem KV.find_set {K V : Type} [DecidableEq K] (m : KV K V) (k k' : K) (v : V) :
    KV.find (KV.set m k v) k' = if k' = k then some v else KV.find m k' := rfl

/-- Lookup in the empty store. -/
theorem KV.find_nil {K V : Type} [DecidableEq K] (k : K) :
    KV.find ([] : KV K V) k = none := rfl

/-! ## C9: cancellation window of source escrows -/

/-- C9.  `cancel_src_escrow` on an existing record succeeds exactly when the
record is non-terminal, the caller is the creator and the ledger time lies
in `[cancellation_start, public_cancellation_start)`; in particular every
attempt at or after `public_cancellation_start` fails, creator or not. -/
theorem claim_C9 (s : FactoryState) (now : Nat) (caller a : Address)
    (ed : SourceEscrowData)
    (hfind : KV.find s.srcEscrows a = some ed) :
    (isOk (Factory.cancel_src_escrow s now caller a) = true ↔
      (ed.funds_withdrawn = false ∧ ed.cancelled = false
       ∧ ed.cancellation_start ≤ now ∧ now < ed.public_cancellation_start
       ∧ caller = ed.creator))
    ∧ (ed.public_cancellation_start ≤ now →
      isOk (Factory.cancel_src_escrow s now caller a) = false) := by
  unfold Factory.cancel_src_escrow
  rw [hfind]
  dsimp only
  constructor
  · split_ifs with h1 h2 h3 h4 h5
    · simp [isOk, h1]
    · simp [isOk, h1, h2]
    · simp only [isOk, Bool.false_eq_true, false_iff]
      rintro ⟨-, -, hc, -, -⟩
      omega
    · simp only [isOk, Bool.false_eq_true, false_iff]
      rintro ⟨-, -, -, hc, -⟩
      omega
    · simp only [isOk, Bool.false_eq_true, false_iff]
      rintro ⟨-, -, -, -, hc⟩
      exact h5 hc
    · simp only [isOk, true_iff]
      refine ⟨by simpa using h1, by simpa using h2, by omega, by omega, by simpa using h5⟩
  · intro hpc
    split_ifs with h1 h2 h3 h4 h5 <;> first | rfl | omega

/-- C9 witness: on the concrete escrow of `c4O1.st` (windows 100/200/300/400,
creator 3), cancellation by the creator at time 350 succeeds and at time 400
fails. -/
theorem claim_C9_witness :
    isOk (Factory.cancel_src_escrow c4O1.st 350 3 7) = true
    ∧ isOk (Factory.cancel_src_escrow c4O1.st 400 3 7) = false := by
  have h1 := claim_C9 c4O1.st 350 3 7 c9Ed (by decide)
  have h2 := claim_C9 c4O1.st 400 3 7 c9Ed (by decide)
  exact ⟨h1.1.mpr (by decide), h2.2 (by decide)⟩

/-! ## C1: fund routing of source-escrow withdrawals -/

/-- C1 (amended).  Whenever a source-escrow withdrawal succeeds — through
the plain or the merkle-proof entry point — BOTH emitted transfers (the
principal and the security deposit) go to the caller who executed the call,
not to the record's contractual recipient. -/
theorem claim_C1_amended (C : Crypto) (s : FactoryState) (now : Nat)
    (caller a : Address) (secret : Nat) (proof : List H32)
    (ed : SourceEscrowData) (o o2 : Out Unit)
    (hfind : KV.find s.srcEscrows a = some ed) :
    (Factory.withdraw_src_escrow C s now caller a secret = .ok o →
      o.transfers =
        [ { token := ed.token, src := s.contractAddr, dst := caller
            amount := ed.amount, viaAllowance := false }
        , { token := ed.token, src := s.contractAddr, dst := caller
            amount := ed.security_deposit, viaAllowance := false } ])
    ∧ (Factory.withdraw_src_escrow_with_proof C s now caller a secret proof = .ok o2 →
      o2.transfers =
        [ { token := ed.token, src := s.contractAddr, dst := caller
            amount := ed.amount, viaAllowance := false }
        , { token := ed.token, src := s.contractAddr, dst := caller
            amount := ed.security_deposit, viaAllowance := false } ]) := by
  constructor
  · intro hok
    unfold Factory.withdraw_src_escrow at hok
    rw [hfind] at hok
    dsimp only at hok
    split_ifs at hok
    all_goals try exact Except.noConfusion hok
    cases hok
    rfl
  · intro hok
    unfold Factory.withdraw_src_escrow_with_proof at hok
    rw [hfind] at hok
    dsimp only at hok
    split_ifs at hok
    all_goals try exact Except.noConfusion hok
    cases hok
    rfl

/-- C1 counterexample.  A successful public-window withdrawal by caller 6
moves the principal (amount 10) to caller 6, while the record's contractual
recipient is address 2: the claim's routing of the principal to the
recipient is refuted at this input. -/
theorem claim_C1_counterexample :
    Factory.withdraw_src_escrow cSimple c4O1.st 250 6 7 42 = .ok c1O
    ∧ KV.find c4O1.st.srcEscrows 7 = some c9Ed
    ∧ c9Ed.recipient = 2
    ∧ c1O.transfers =
      [ { token := 9, src := 7, dst := 6, amount := 10, viaAllowance := false }
      , { token := 9, src := 7, dst := 6, amount := 1000000, viaAllowance := false } ]
    ∧ (6 : Address) ≠ 2 := by decide

/-- C1 witness: the amended theorem applied to a concrete plain withdrawal
and a concrete merkle-proof withdrawal, both by caller 6. -/
theorem claim_C1_witness :
    c1O.transfers =
      [ { token := c9Ed.token, src := c4O1.st.contractAddr, dst := 6
          amount := c9Ed.amount, viaAllowance := false }
      , { token := c9Ed.token, src := c4O1.st.contractAddr, dst := 6
          amount := c9Ed.security_deposit, viaAllowance := false } ]
    ∧ c1O2.transfers =
      [ { token := c1Ed2.token, src := c1S2.contractAddr, dst := 6
          amount := c1Ed2.amount, viaAllowance := false }
      , { token := c1Ed2.token, src := c1S2.contractAddr, dst := 6
          amount := c1Ed2.security_deposit, viaAllowance := false } ] := by
  have h1 :=
    (claim_C1_amended cSimple c4O1.st 250 6 7 42 [] c9Ed c1O c1O (by decide)).1
      (by decide)
  have h2 :=
    (claim_C1_amended cSimple c1S2 250 6 7 43 [] c1Ed2 c1O2 c1O2 (by decide)).2
      (by decide)
  exact ⟨h1, h2⟩

/-! ## C3: owner gating of the resolver entry points -/

/-- C3 (amended).  Of the six mutating resolver entry points, four
(`execute_cross_chain_swap`, `complete_cross_chain_swap`,
`create_destination_escrow`, `cancel_order`) fail `Unauthorized` before any
other effect when the caller is not the configured owner; the two
withdrawal entry points (`withdraw_from_source_escrow`,
`withdraw_from_destination_escrow`) perform no owner check at all — their
result does not depend on the resolver's stored owner. -/
theorem claim_C3_amended :
    (∀ (rs : ResolverState) (L : LopState) (F : FactoryState) caller oh maker r
        amt hs w pi tp, caller ≠ rs.owner →
      Resolver.execute_cross_chain_swap rs L F caller oh maker r amt hs w pi tp
        = .error .unauthorized)
    ∧ (∀ (rs : ResolverState) (C : Crypto) (F : FactoryState) now caller a secret
        pi proof, caller ≠ rs.owner →
      Resolver.complete_cross_chain_swap rs C F now caller a secret pi proof
        = .error .unauthorized)
    ∧ (∀ (rs : ResolverState) (F : FactoryState) caller hs r amt w pw c pi tp,
        caller ≠ rs.owner →
      Resolver.create_destination_escrow rs F caller hs r amt w pw c pi tp
        = .error .unauthorized)
    ∧ (∀ (rs : ResolverState) (L : LopState) (F : FactoryState) now caller oh pi,
        caller ≠ rs.owner →
      Resolver.cancel_order rs L F now caller oh pi = .error .unauthorized)
    ∧ (∀ (rs rs2 : ResolverState) (C : Crypto) (F : FactoryState) now caller a
        secret pi proof,
      Resolver.withdraw_from_source_escrow rs C F now caller a secret pi proof =
      Resolver.withdraw_from_source_escrow rs2 C F now caller a secret pi proof)
    ∧ (∀ (rs rs2 : ResolverState) (C : Crypto) (F : FactoryState) now caller a
        secret pi proof,
      Resolver.withdraw_from_destination_escrow rs C F now caller a secret pi proof =
      Resolver.withdraw_from_destination_escrow rs2 C F now caller a secret pi proof) := by
  refine ⟨?_, ?_, ?_, ?_, ?_, ?_⟩
  · intro rs L F caller oh maker r amt hs w pi tp h
    unfold Resolver.execute_cross_chain_swap
    rw [if_pos h]
  · intro rs C F now caller a secret pi proof h
    unfold Resolver.complete_cross_chain_swap
    rw [if_pos h]
  · intro rs F caller hs r amt w pw c pi tp h
    unfold Resolver.create_destination_escrow
    rw [if_pos h]
  · intro rs L F now caller oh pi h
    unfold Resolver.cancel_order
    rw [if_pos h]
  · intro rs rs2 C F now caller a secret pi proof
    rfl
  · intro rs rs2 C F now caller a secret pi proof
    rfl

/-- C3 counterexample.  `withdraw_from_source_escrow` called by address 6,
which is not the configured owner 0, does not fail `Unauthorized`: it
succeeds outright, refuting the claim for this entry point. -/
theorem claim_C3_counterexample :
    isOk (Resolver.withdraw_from_source_escrow { owner := 0 } cSimple c4O1.st
      250 6 7 42 1 []) = true
    ∧ (6 : Address) ≠ ({ owner := 0 } : ResolverState).owner := by decide

/-- C3 witness: the four owner-gated entry points refused for caller 1
(owner 0), and insensitivity of the two withdrawal entry points to the
stored owner. -/
theorem claim_C3_witness :
    Resolver.execute_cross_chain_swap { owner := 0 } (initLop 8) (initFactory 9 7)
      1 11 3 2 10 42 100 0 1 = .error .unauthorized
    ∧ Resolver.complete_cross_chain_swap { owner := 0 } cSimple (initFactory 9 7)
      0 1 7 42 0 [] = .error .unauthorized
    ∧ Resolver.create_destination_escrow { owner := 0 } (initFactory 9 7)
      1 42 2 10 100 200 300 0 1 = .error .unauthorized
    ∧ Resolver.cancel_order { owner := 0 } (initLop 8) (initFactory 9 7)
      0 1 11 0 = .error .unauthorized
    ∧ Resolver.withdraw_from_source_escrow { owner := 0 } cSimple c4O1.st
        250 6 7 42 1 [] =
      Resolver.withdraw_from_source_escrow { owner := 5 } cSimple c4O1.st
        250 6 7 42 1 []
    ∧ Resolver.withdraw_from_destination_escrow { owner := 0 } cSimple c4O1.st
        250 6 7 42 1 [] =
      Resolver.withdraw_from_destination_escrow { owner := 5 } cSimple c4O1.st
        250 6 7 42 1 [] := by
  have h := claim_C3_amended
  refine ⟨?_, ?_, ?_, ?_, ?_, ?_⟩
  · exact h.1 { owner := 0 } (initLop 8) (initFactory 9 7) 1 11 3 2 10 42 100 0 1
      (by decide)
  · exact h.2.1 { owner := 0 } cSimple (initFactory 9 7) 0 1 7 42 0 [] (by decide)
  · exact h.2.2.1 { owner := 0 } (initFactory 9 7) 1 42 2 10 100 200 300 0 1
      (by decide)
  · exact h.2.2.2.1 { owner := 0 } (initLop 8) (initFactory 9 7) 0 1 11 0 (by decide)
  · exact h.2.2.2.2.1 { owner := 0 } { owner := 5 } cSimple c4O1.st 250 6 7 42 1 []
  · exact h.2.2.2.2.2 { owner := 0 } { owner := 5 } cSimple c4O1.st 250 6 7 42 1 []

/-! ## C4: the shared storage key of source-escrow creations -/

/-- Any successful source-escrow creation returns the contract's own address,
stores its record under that same address, and bumps the counter by one. -/
theorem runSrcCreation_ok (s : FactoryState) (k : SrcCreation) (o : Out Address)
    (h : runSrcCreation s k = .ok o) :
    o.ret = s.contractAddr
    ∧ KV.find o.st.srcEscrows s.contractAddr = some (mkSrcRecord s k)
    ∧ o.st.escrowCounter = s.escrowCounter + 1
    ∧ o.st.contractAddr = s.contractAddr
    ∧ o.st.nativeToken = s.nativeToken := by
  cases k with
  | full cr hs r b amt w pw c pc =>
    unfold runSrcCreation Factory.create_src_escrow at h
    dsimp only at h
    split_ifs at h
    all_goals try exact Except.noConfusion h
    all_goals cases h
    all_goals exact ⟨rfl, by simp [KV.find_set, mkSrcRecord], rfl, rfl, rfl⟩
  | pf cr hs r b amt w pw c pi tp =>
    unfold runSrcCreation Factory.create_src_escrow_pf at h
    dsimp only at h
    split_ifs at h
    all_goals try exact Except.noConfusion h
    all_goals cases h
    all_goals exact ⟨rfl, by simp [KV.find_set, mkSrcRecord], rfl, rfl, rfl⟩

/-- C4.  Both source-escrow creation entry points key the stored record on
the contract's own address and return that address, so two back-to-back
creations leave only the second record visible under either returned
reference, while the counter still advances once per creation. -/
theorem claim_C4 (s : FactoryState) (k1 k2 : SrcCreation) (o1 o2 : Out Address)
    (h1 : runSrcCreation s k1 = .ok o1)
    (h2 : runSrcCreation o1.st k2 = .ok o2) :
    o1.ret = s.contractAddr ∧ o2.ret = s.contractAddr
    ∧ KV.find o2.st.srcEscrows o1.ret = some (mkSrcRecord o1.st k2)
    ∧ KV.find o2.st.srcEscrows o2.ret = some (mkSrcRecord o1.st k2)
    ∧ o2.st.escrowCounter = s.escrowCounter + 2 := by
  obtain ⟨r1, f1, c1, a1, n1⟩ := runSrcCreation_ok s k1 o1 h1
  obtain ⟨r2, f2, c2, a2, n2⟩ := runSrcCreation_ok o1.st k2 o2 h2
  refine ⟨r1, by rw [r2]; exact a1, ?_, ?_, by omega⟩
  · rw [r1, ← a1]
    exact f2
  · rw [r2]
    exact f2

/-- C4 witness: a full-fill creation followed by a partial-entry-point
creation on the concrete state `c4S`; both references read back the second
record. -/
theorem claim_C4_witness :
    c4O1.ret = c4S.contractAddr ∧ c4O2.ret = c4S.contractAddr
    ∧ KV.find c4O2.st.srcEscrows c4O1.ret = some (mkSrcRecord c4O1.st c4K2)
    ∧ KV.find c4O2.st.srcEscrows c4O2.ret = some (mkSrcRecord c4O1.st c4K2)
    ∧ c4O2.st.escrowCounter = c4S.escrowCounter + 2 :=
  claim_C4 c4S c4K1 c4K2 c4O1 c4O2 (by decide) (by decide)

/-! ## Record well-formedness is preserved by every factory entry point -/

/-- Framing: an operation that does not touch the escrow maps preserves
well-formedness. -/
theorem StateWF_frame {s s2 : FactoryState} (hwf : StateWF s)
    (hsrc : s2.srcEscrows = s.srcEscrows)
    (hdst : s2.dstEscrows = s.dstEscrows) : StateWF s2 := by
  refine ⟨fun a2 ed2 hf => ?_, fun a2 ed2 hf => ?_⟩
  · rw [hsrc] at hf
    exact hwf.1 a2 ed2 hf
  · rw [hdst] at hf
    exact hwf.2 a2 ed2 hf

/-- Storing one well-formed source record preserves well-formedness. -/
theorem StateWF_updateSrc {s s2 : FactoryState} {a : Address}
    {ed : SourceEscrowData} (hwf : StateWF s)
    (hsrc : s2.srcEscrows = KV.set s.srcEscrows a ed)
    (hdst : s2.dstEscrows = s.dstEscrows)
    (hed : srcWF ed) : StateWF s2 := by
  refine ⟨fun a2 ed2 hf => ?_, fun a2 ed2 hf => ?_⟩
  · rw [hsrc, KV.find_set] at hf
    split at hf
    · cases hf
      exact hed
    · exact hwf.1 a2 ed2 hf
  · rw [hdst] at hf
    exact hwf.2 a2 ed2 hf

/-- Storing one well-formed destination record preserves well-formedness. -/
theorem StateWF_updateDst {s s2 : FactoryState} {a : Address}
    {ed : DestinationEscrowData} (hwf : StateWF s)
    (hdst : s2.dstEscrows = KV.set s.dstEscrows a ed)
    (hsrc : s2.srcEscrows = s.srcEscrows)
    (hed : dstWF ed) : StateWF s2 := by
  refine ⟨fun a2 ed2 hf => ?_, fun a2 ed2 hf => ?_⟩
  · rw [hsrc] at hf
    exact hwf.1 a2 ed2 hf
  · rw [hdst, KV.find_set] at hf
    split at hf
    · cases hf
      exact hed
    · exact hwf.2 a2 ed2 hf

/-- `create_src_escrow` preserves well-formedness. -/
theorem wf_createSrc {s : FactoryState} {cr r b : Address} {hs : H32} {amt : Int}
    {w pw c pc : Nat} {o : Out Address} (hwf : StateWF s)
    (h : Factory.create_src_escrow s cr hs r b amt w pw c pc = .ok o) :
    StateWF o.st := by
  unfold Factory.create_src_escrow at h
  dsimp only at h
  split_ifs at h with h1 h2 h3
  all_goals try exact Except.noConfusion h
  cases h
  refine StateWF_updateSrc hwf rfl rfl ⟨Or.inl rfl, ?_, ?_, ?_⟩
  all_goals dsimp only
  all_goals omega

/-- `create_dst_escrow` preserves well-formedness. -/
theorem wf_createDst {s : FactoryState} {cr r : Address} {hs : H32} {amt : Int}
    {w pw c : Nat} {o : Out Address} (hwf : StateWF s)
    (h : Factory.create_dst_escrow s cr hs r amt w pw c = .ok o) :
    StateWF o.st := by
  unfold Factory.create_dst_escrow at h
  dsimp only at h
  split_ifs at h with h1 h2
  all_goals try exact Except.noConfusion h
  cases h
  refine StateWF_updateDst hwf rfl rfl ⟨Or.inl rfl, ?_, ?_⟩
  all_goals dsimp only
  all_goals omega

/-- `create_src_escrow_partial` preserves well-formedness. -/
theorem wf_createSrcPf {s : FactoryState} {cr r b : Address} {hs : H32} {amt : Int}
    {w pw c pi tp : Nat} {o : Out Address} (hwf : StateWF s)
    (h : Factory.create_src_escrow_pf s cr hs r b amt w pw c pi tp = .ok o) :
    StateWF o.st := by
  unfold Factory.create_src_escrow_pf at h
  dsimp only at h
  split_ifs at h
  all_goals try exact Except.noConfusion h
  all_goals cases h
  all_goals refine StateWF_updateSrc hwf rfl rfl ⟨Or.inl rfl, ?_, ?_, ?_⟩
  all_goals dsimp only
  all_goals omega

/-- `create_dst_escrow_partial` preserves well-formedness. -/
theorem wf_createDstPf {s : FactoryState} {cr r : Address} {hs : H32} {amt : Int}
    {w pw c pi tp : Nat} {o : Out Address} (hwf : StateWF s)
    (h : Factory.create_dst_escrow_pf s cr hs r amt w pw c pi tp = .ok o) :
    StateWF o.st := by
  unfold Factory.create_dst_escrow_pf at h
  dsimp only at h
  split_ifs at h
  all_goals try exact Except.noConfusion h
  all_goals cases h
  all_goals refine StateWF_updateDst hwf rfl rfl ⟨Or.inl rfl, ?_, ?_⟩
  all_goals dsimp only
  all_goals omega

/-- `withdraw_src_escrow` preserves well-formedness. -/
theorem wf_withdrawSrc {C : Crypto} {s : FactoryState} {now : Nat}
    {caller a : Address} {secret : Nat} {o : Out Unit} (hwf : StateWF s)
    (h : Factory.withdraw_src_escrow C s now caller a secret = .ok o) :
    StateWF o.st := by
  unfold Factory.withdraw_src_escrow at h
  cases hf : KV.find s.srcEscrows a with
  | none => rw [hf] at h; exact Except.noConfusion h
  | some ed =>
    rw [hf] at h
    dsimp only at h
    split_ifs at h with h1 h2 h3 h4 h5 h6
    all_goals try exact Except.noConfusion h
    cases h
    have hed := hwf.1 a ed hf
    exact StateWF_updateSrc hwf rfl rfl
      ⟨Or.inr (by simpa using h2), hed.2.1, hed.2.2.1, hed.2.2.2⟩

/-- `withdraw_src_escrow_with_proof` preserves well-formedness. -/
theorem wf_withdrawSrcProof {C : Crypto} {s : FactoryState} {now : Nat}
    {caller a : Address} {secret : Nat} {proof : List H32} {o : Out Unit}
    (hwf : StateWF s)
    (h : Factory.withdraw_src_escrow_with_proof C s now caller a secret proof
      = .ok o) :
    StateWF o.st := by
  unfold Factory.withdraw_src_escrow_with_proof at h
  cases hf : KV.find s.srcEscrows a with
  | none => rw [hf] at h; exact Except.noConfusion h
  | some ed =>
    rw [hf] at h
    dsimp only at h
    split_ifs at h with h1 h2 h3 h4 h5 h6 h7
    all_goals try exact Except.noConfusion h
    cases h
    have hed := hwf.1 a ed hf
    exact StateWF_updateSrc hwf rfl rfl
      ⟨Or.inr (by simpa using h2), hed.2.1, hed.2.2.1, hed.2.2.2⟩

/-- `withdraw_dst_escrow` preserves well-formedness. -/
theorem wf_withdrawDst {C : Crypto} {s : FactoryState} {now : Nat}
    {caller a : Address} {secret : Nat} {o : Out Unit} (hwf : StateWF s)
    (h : Factory.withdraw_dst_escrow C s now caller a secret = .ok o) :
    StateWF o.st := by
  unfold Factory.withdraw_dst_escrow at h
  cases hf : KV.find s.dstEscrows a with
  | none => rw [hf] at h; exact Except.noConfusion h
  | some ed =>
    rw [hf] at h
    dsimp only at h
    split_ifs at h with h1 h2 h3 h4 h5 h6
    all_goals try exact Except.noConfusion h
    cases h
    have hed := hwf.2 a ed hf
    exact StateWF_updateDst hwf rfl rfl
      ⟨Or.inr (by simpa using h2), hed.2.1, hed.2.2⟩

/-- `withdraw_dst_escrow_with_proof` preserves well-formedness. -/
theorem wf_withdrawDstProof {C : Crypto} {s : FactoryState} {now : Nat}
    {caller a : Address} {secret : Nat} {proof : List H32} {o : Out Unit}
    (hwf : StateWF s)
    (h : Factory.withdraw_dst_escrow_with_proof C s now caller a secret proof
      = .ok o) :
    StateWF o.st := by
  unfold Factory.withdraw_dst_escrow_with_proof at h
  cases hf : KV.find s.dstEscrows a with
  | none => rw [hf] at h; exact Except.noConfusion h
  | some ed =>
    rw [hf] at h
    dsimp only at h
    split_ifs at h with h1 h2 h3 h4 h5 h6 h7
    all_goals try exact Except.noConfusion h
    cases h
    have hed := hwf.2 a ed hf
    exact StateWF_updateDst hwf rfl rfl
      ⟨Or.inr (by simpa using h2), hed.2.1, hed.2.2⟩

/-- `cancel_src_escrow` preserves well-formedness. -/
theorem wf_cancelSrc {s : FactoryState} {now : Nat} {caller a : Address}
    {o : Out Unit} (hwf : StateWF s)
    (h : Factory.cancel_src_escrow s now caller a = .ok o) :
    StateWF o.st := by
  unfold Factory.cancel_src_escrow at h
  cases hf : KV.find s.srcEscrows a with
  | none => rw [hf] at h; exact Except.noConfusion h
  | some ed =>
    rw [hf] at h
    dsimp only at h
    split_ifs at h with h1 h2 h3 h4 h5
    all_goals try exact Except.noConfusion h
    cases h
    have hed := hwf.1 a ed hf
    exact StateWF_updateSrc hwf rfl rfl
      ⟨Or.inl (by simpa using h1), hed.2.1, hed.2.2.1, hed.2.2.2⟩

/-- `cancel_dst_escrow` preserves well-formedness. -/
theorem wf_cancelDst {s : FactoryState} {now : Nat} {caller a : Address}
    {o : Out Unit} (hwf : StateWF s)
    (h : Factory.cancel_dst_escrow s now caller a = .ok o) :
    StateWF o.st := by
  unfold Factory.cancel_dst_escrow at h
  cases hf : KV.find s.dstEscrows a with
  | none => rw [hf] at h; exact Except.noConfusion h
  | some ed =>
    rw [hf] at h
    dsimp only at h
    split_ifs at h with h1 h2 h3 h4
    all_goals try exact Except.noConfusion h
    cases h
    have hed := hwf.2 a ed hf
    exact StateWF_updateDst hwf rfl rfl
      ⟨Or.inl (by simpa using h1), hed.2.1, hed.2.2⟩

/-- `rescue_src_escrow` preserves well-formedness. -/
theorem wf_rescueSrc {s : FactoryState} {now : Nat} {caller a : Address}
    {o : Out Unit} (hwf : StateWF s)
    (h : Factory.rescue_src_escrow s now caller a = .ok o) :
    StateWF o.st := by
  unfold Factory.rescue_src_escrow at h
  cases hf : KV.find s.srcEscrows a with
  | none => rw [hf] at h; exact Except.noConfusion h
  | some ed =>
    rw [hf] at h
    dsimp only at h
    split_ifs at h with h1 h2 h3 h4
    all_goals try exact Except.noConfusion h
    cases h
    have hed := hwf.1 a ed hf
    exact StateWF_updateSrc hwf rfl rfl
      ⟨Or.inr (by simpa using h2), hed.2.1, hed.2.2.1, hed.2.2.2⟩

/-- `rescue_dst_escrow` preserves well-formedness. -/
theorem wf_rescueDst {s : FactoryState} {now : Nat} {caller a : Address}
    {o : Out Unit} (hwf : StateWF s)
    (h : Factory.rescue_dst_escrow s now caller a = .ok o) :
    StateWF o.st := by
  unfold Factory.rescue_dst_escrow at h
  cases hf : KV.find s.dstEscrows a with
  | none => rw [hf] at h; exact Except.noConfusion h
  | some ed =>
    rw [hf] at h
    dsimp only at h
    split_ifs at h with h1 h2 h3 h4
    all_goals try exact Except.noConfusion h
    cases h
    have hed := hwf.2 a ed hf
    exact StateWF_updateDst hwf rfl rfl
      ⟨Or.inr (by simpa using h2), hed.2.1, hed.2.2⟩

/-- Every state reachable from a freshly initialized factory stores only
well-formed escrow records. -/
theorem freachable_wf {C : Crypto} {native ca : Address} {s : FactoryState}
    (h : FReachable C native ca s) : StateWF s := by
  induction h with
  | init =>
    exact ⟨fun a ed hf => by exact Option.noConfusion hf,
           fun a ed hf => by exact Option.noConfusion hf⟩
  | @step s2 op hr ih =>
    cases op with
    | createSrc cr hs r b amt w pw c pc =>
      simp only [applyFOp]
      cases hk : Factory.create_src_escrow s2 cr hs r b amt w pw c pc with
      | ok o => exact wf_createSrc ih hk
      | error e => exact ih
    | createDst cr hs r amt w pw c =>
      simp only [applyFOp]
      cases hk : Factory.create_dst_escrow s2 cr hs r amt w pw c with
      | ok o => exact wf_createDst ih hk
      | error e => exact ih
    | createSrcPf cr hs r b amt w pw c pi tp =>
      simp only [applyFOp]
      cases hk : Factory.create_src_escrow_pf s2 cr hs r b amt w pw c pi tp with
      | ok o => exact wf_createSrcPf ih hk
      | error e => exact ih
    | createDstPf cr hs r amt w pw c pi tp =>
      simp only [applyFOp]
      cases hk : Factory.create_dst_escrow_pf s2 cr hs r amt w pw c pi tp with
      | ok o => exact wf_createDstPf ih hk
      | error e => exact ih
    | withdrawSrc now caller addr secret =>
      simp only [applyFOp]
      cases hk : Factory.withdraw_src_escrow C s2 now caller addr secret with
      | ok o => exact wf_withdrawSrc ih hk
      | error e => exact ih
    | withdrawSrcProof now caller addr secret proof =>
      simp only [applyFOp]
      cases hk : Factory.withdraw_src_escrow_with_proof C s2 now caller addr
          secret proof with
      | ok o => exact wf_withdrawSrcProof ih hk
      | error e => exact ih
    | withdrawDst now caller addr secret =>
      simp only [applyFOp]
      cases hk : Factory.withdraw_dst_escrow C s2 now caller addr secret with
      | ok o => exact wf_withdrawDst ih hk
      | error e => exact ih
    | withdrawDstProof now caller addr secret proof =>
      simp only [applyFOp]
      cases hk : Factory.withdraw_dst_escrow_with_proof C s2 now caller addr
          secret proof with
      | ok o => exact wf_withdrawDstProof ih hk
      | error e => exact ih
    | cancelSrc now caller addr =>
      simp only [applyFOp]
      cases hk : Factory.cancel_src_escrow s2 now caller addr with
      | ok o => exact wf_cancelSrc ih hk
      | error e => exact ih
    | cancelDst now caller addr =>
      simp only [applyFOp]
      cases hk : Factory.cancel_dst_escrow s2 now caller addr with
      | ok o => exact wf_cancelDst ih hk
      | error e => exact ih
    | rescueSrc now caller addr =>
      simp only [applyFOp]
      cases hk : Factory.rescue_src_escrow s2 now caller addr with
      | ok o => exact wf_rescueSrc ih hk
      | error e => exact ih
    | rescueDst now caller addr =>
      simp only [applyFOp]
      cases hk : Factory.rescue_dst_escrow s2 now caller addr with
      | ok o => exact wf_rescueDst ih hk
      | error e => exact ih
    | approveF caller amt =>
      simp only [applyFOp]
      cases hk : Factory.approve s2 caller amt with
      | ok o =>
        refine StateWF_frame ih ?_ ?_
        all_goals
          unfold Factory.approve at hk
          cases hk
          rfl
      | error e => exact ih

/-! ## C2: terminal records refuse every state-changing operation -/

/-- A terminal source record makes `withdraw_src_escrow` fail. -/
theorem terminal_withdrawSrc {C : Crypto} {s : FactoryState} {now : Nat}
    {caller a : Address} {secret : Nat} {ed : SourceEscrowData}
    (hf : KV.find s.srcEscrows a = some ed)
    (ht : ed.funds_withdrawn = true ∨ ed.cancelled = true) :
    isOk (Factory.withdraw_src_escrow C s now caller a secret) = false := by
  unfold Factory.withdraw_src_escrow
  rw [hf]
  dsimp only
  rcases ht with h | h
  · simp [h, isOk]
  · cases hfw : ed.funds_withdrawn <;> simp [h, hfw, isOk]

/-- A terminal source record makes `withdraw_src_escrow_with_proof` fail. -/
theorem terminal_withdrawSrcProof {C : Crypto} {s : FactoryState} {now : Nat}
    {caller a : Address} {secret : Nat} {proof : List H32} {ed : SourceEscrowData}
    (hf : KV.find s.srcEscrows a = some ed)
    (ht : ed.funds_withdrawn = true ∨ ed.cancelled = true) :
    isOk (Factory.withdraw_src_escrow_with_proof C s now caller a secret proof)
      = false := by
  unfold Factory.withdraw_src_escrow_with_proof
  rw [hf]
  dsimp only
  rcases ht with h | h
  · simp [h, isOk]
  · cases hfw : ed.funds_withdrawn <;> simp [h, hfw, isOk]

/-- A terminal source record makes `cancel_src_escrow` fail. -/
theorem terminal_cancelSrc {s : FactoryState} {now : Nat} {caller a : Address}
    {ed : SourceEscrowData} (hf : KV.find s.srcEscrows a = some ed)
    (ht : ed.funds_withdrawn = true ∨ ed.cancelled = true) :
    isOk (Factory.cancel_src_escrow s now caller a) = false := by
  unfold Factory.cancel_src_escrow
  rw [hf]
  dsimp only
  rcases ht with h | h
  · simp [h, isOk]
  · cases hfw : ed.funds_withdrawn <;> simp [h, hfw, isOk]

/-- A terminal source record makes `rescue_src_escrow` fail. -/
theorem terminal_rescueSrc {s : FactoryState} {now : Nat} {caller a : Address}
    {ed : SourceEscrowData} (hf : KV.find s.srcEscrows a = some ed)
    (ht : ed.funds_withdrawn = true ∨ ed.cancelled = true) :
    isOk (Factory.rescue_src_escrow s now caller a) = false := by
  unfold Factory.rescue_src_escrow
  rw [hf]
  dsimp only
  rcases ht with h | h
  · simp [h, isOk]
  · cases hfw : ed.funds_withdrawn <;> simp [h, hfw, isOk]

/-- A terminal destination record makes `withdraw_dst_escrow` fail. -/
theorem terminal_withdrawDst {C : Crypto} {s : FactoryState} {now : Nat}
    {caller a : Address} {secret : Nat} {ed : DestinationEscrowData}
    (hf : KV.find s.dstEscrows a = some ed)
    (ht : ed.funds_withdrawn = true ∨ ed.cancelled = true) :
    isOk (Factory.withdraw_dst_escrow C s now caller a secret) = false := by
  unfold Factory.withdraw_dst_escrow
  rw [hf]
  dsimp only
  rcases ht with h | h
  · simp [h, isOk]
  · cases hfw : ed.funds_withdrawn <;> simp [h, hfw, isOk]

/-- A terminal destination record makes `withdraw_dst_escrow_with_proof`
fail. -/
theorem terminal_withdrawDstProof {C : Crypto} {s : FactoryState} {now : Nat}
    {caller a : Address} {secret : Nat} {proof : List H32}
    {ed : DestinationEscrowData} (hf : KV.find s.dstEscrows a = some ed)
    (ht : ed.funds_withdrawn = true ∨ ed.cancelled = true) :
    isOk (Factory.withdraw_dst_escrow_with_proof C s now caller a secret proof)
      = false := by
  unfold Factory.withdraw_dst_escrow_with_proof
  rw [hf]
  dsimp only
  rcases ht with h | h
  · simp [h, isOk]
  · cases hfw : ed.funds_withdrawn <;> simp [h, hfw, isOk]

/-- A terminal destination record makes `cancel_dst_escrow` fail. -/
theorem terminal_cancelDst {s : FactoryState} {now : Nat} {caller a : Address}
    {ed : DestinationEscrowData} (hf : KV.find s.dstEscrows a = some ed)
    (ht : ed.funds_withdrawn = true ∨ ed.cancelled = true) :
    isOk (Factory.cancel_dst_escrow s now caller a) = false := by
  unfold Factory.cancel_dst_escrow
  rw [hf]
  dsimp only
  rcases ht with h | h
  · simp [h, isOk]
  · cases hfw : ed.funds_withdrawn <;> simp [h, hfw, isOk]

/-- A terminal destination record makes `rescue_dst_escrow` fail. -/
theorem terminal_rescueDst {s : FactoryState} {now : Nat} {caller a : Address}
    {ed : DestinationEscrowData} (hf : KV.find s.dstEscrows a = some ed)
    (ht : ed.funds_withdrawn = true ∨ ed.cancelled = true) :
    isOk (Factory.rescue_dst_escrow s now caller a) = false := by
  unfold Factory.rescue_dst_escrow
  rw [hf]
  dsimp only
  rcases ht with h | h
  · simp [h, isOk]
  · cases hfw : ed.funds_withdrawn <;> simp [h, hfw, isOk]

/-- A failing `withdraw_src_escrow` leaves the chain state untouched. -/
theorem applyFOp_withdrawSrc_err {C : Crypto} {s : FactoryState} {now : Nat}
    {caller a : Address} {secret : Nat}
    (h : isOk (Factory.withdraw_src_escrow C s now caller a secret) = false) :
    applyFOp C s (.withdrawSrc now caller a secret) = s := by
  simp only [applyFOp]
  cases hk : Factory.withdraw_src_escrow C s now caller a secret with
  | ok o => rw [hk] at h; simp [isOk] at h
  | error e => rfl

/-- A failing `withdraw_src_escrow_with_proof` leaves the chain state
untouched. -/
theorem applyFOp_withdrawSrcProof_err {C : Crypto} {s : FactoryState} {now : Nat}
    {caller a : Address} {secret : Nat} {proof : List H32}
    (h : isOk (Factory.withdraw_src_escrow_with_proof C s now caller a secret
      proof) = false) :
    applyFOp C s (.withdrawSrcProof now caller a secret proof) = s := by
  simp only [applyFOp]
  cases hk : Factory.withdraw_src_escrow_with_proof C s now caller a secret proof with
  | ok o => rw [hk] at h; simp [isOk] at h
  | error e => rfl

/-- A failing `cancel_src_escrow` leaves the chain state untouched. -/
theorem applyFOp_cancelSrc_err {C : Crypto} {s : FactoryState} {now : Nat}
    {caller a : Address}
    (h : isOk (Factory.cancel_src_escrow s now caller a) = false) :
    applyFOp C s (.cancelSrc now caller a) = s := by
  simp only [applyFOp]
  cases hk : Factory.cancel_src_escrow s now caller a with
  | ok o => rw [hk] at h; simp [isOk] at h
  | error e => rfl

/-- A failing `rescue_src_escrow` leaves the chain state untouched. -/
theorem applyFOp_rescueSrc_err {C : Crypto} {s : FactoryState} {now : Nat}
    {caller a : Address}
    (h : isOk (Factory.rescue_src_escrow s now caller a) = false) :
    applyFOp C s (.rescueSrc now caller a) = s := by
  simp only [applyFOp]
  cases hk : Factory.rescue_src_escrow s now caller a with
  | ok o => rw [hk] at h; simp [isOk] at h
  | error e => rfl

/-- A failing `withdraw_dst_escrow` leaves the chain state untouched. -/
theorem applyFOp_withdrawDst_err {C : Crypto} {s : FactoryState} {now : Nat}
    {caller a : Address} {secret : Nat}
    (h : isOk (Factory.withdraw_dst_escrow C s now caller a secret) = false) :
    applyFOp C s (.withdrawDst now caller a secret) = s := by
  simp only [applyFOp]
  cases hk : Factory.withdraw_dst_escrow C s now caller a secret with
  | ok o => rw [hk] at h; simp [isOk] at h
  | error e => rfl

/-- A failing `withdraw_dst_escrow_with_proof` leaves the chain state
untouched. -/
theorem applyFOp_withdrawDstProof_err {C : Crypto} {s : FactoryState} {now : Nat}
    {caller a : Address} {secret : Nat} {proof : List H32}
    (h : isOk (Factory.withdraw_dst_escrow_with_proof C s now caller a secret
      proof) = false) :
    applyFOp C s (.withdrawDstProof now caller a secret proof) = s := by
  simp only [applyFOp]
  cases hk : Factory.withdraw_dst_escrow_with_proof C s now caller a secret proof with
  | ok o => rw [hk] at h; simp [isOk] at h
  | error e => rfl

/-- A failing `cancel_dst_escrow` leaves the chain state untouched. -/
theorem applyFOp_cancelDst_err {C : Crypto} {s : FactoryState} {now : Nat}
    {caller a : Address}
    (h : isOk (Factory.cancel_dst_escrow s now caller a) = false) :
    applyFOp C s (.cancelDst now caller a) = s := by
  simp only [applyFOp]
  cases hk : Factory.cancel_dst_escrow s now caller a with
  | ok o => rw [hk] at h; simp [isOk] at h
  | error e => rfl

/-- A failing `rescue_dst_escrow` leaves the chain state untouched. -/
theorem applyFOp_rescueDst_err {C : Crypto} {s : FactoryState} {now : Nat}
    {caller a : Address}
    (h : isOk (Factory.rescue_dst_escrow s now caller a) = false) :
    applyFOp C s (.rescueDst now caller a) = s := by
  simp only [applyFOp]
  cases hk : Factory.rescue_dst_escrow s now caller a with
  | ok o => rw [hk] at h; simp [isOk] at h
  | error e => rfl

/-- C2.  In every reachable factory state the two terminal flags of every
stored escrow record are mutually exclusive, and once either flag is set
every state-changing operation on that record (withdraw,
withdraw-with-proof, cancel, rescue) fails and leaves the whole chain state
unchanged. -/
theorem claim_C2 (C : Crypto) (native ca : Address) (s : FactoryState)
    (hreach : FReachable C native ca s) :
    (∀ a ed, KV.find s.srcEscrows a = some ed →
        (ed.funds_withdrawn = false ∨ ed.cancelled = false))
    ∧ (∀ a ed, KV.find s.dstEscrows a = some ed →
        (ed.funds_withdrawn = false ∨ ed.cancelled = false))
    ∧ (∀ a ed now caller secret proof,
        KV.find s.srcEscrows a = some ed →
        (ed.funds_withdrawn = true ∨ ed.cancelled = true) →
        isOk (Factory.withdraw_src_escrow C s now caller a secret) = false
        ∧ isOk (Factory.withdraw_src_escrow_with_proof C s now caller a secret
            proof) = false
        ∧ isOk (Factory.cancel_src_escrow s now caller a) = false
        ∧ isOk (Factory.rescue_src_escrow s now caller a) = false
        ∧ applyFOp C s (.withdrawSrc now caller a secret) = s
        ∧ applyFOp C s (.withdrawSrcProof now caller a secret proof) = s
        ∧ applyFOp C s (.cancelSrc now caller a) = s
        ∧ applyFOp C s (.rescueSrc now caller a) = s)
    ∧ (∀ a ed now caller secret proof,
        KV.find s.dstEscrows a = some ed →
        (ed.funds_withdrawn = true ∨ ed.cancelled = true) →
        isOk (Factory.withdraw_dst_escrow C s now caller a secret) = false
        ∧ isOk (Factory.withdraw_dst_escrow_with_proof C s now caller a secret
            proof) = false
        ∧ isOk (Factory.cancel_dst_escrow s now caller a) = false
        ∧ isOk (Factory.rescue_dst_escrow s now caller a) = false
        ∧ applyFOp C s (.withdrawDst now caller a secret) = s
        ∧ applyFOp C s (.withdrawDstProof now caller a secret proof) = s
        ∧ applyFOp C s (.cancelDst now caller a) = s
        ∧ applyFOp C s (.rescueDst now caller a) = s) := by
  have hwf := freachable_wf hreach
  refine ⟨fun a ed hf => (hwf.1 a ed hf).1, fun a ed hf => (hwf.2 a ed hf).1,
    ?_, ?_⟩
  · intro a ed now caller secret proof hf ht
    have t1 : isOk (Factory.withdraw_src_escrow C s now caller a secret) = false :=
      terminal_withdrawSrc hf ht
    have t2 : isOk (Factory.withdraw_src_escrow_with_proof C s now caller a
        secret proof) = false :=
      terminal_withdrawSrcProof hf ht
    have t3 : isOk (Factory.cancel_src_escrow s now caller a) = false :=
      terminal_cancelSrc hf ht
    have t4 : isOk (Factory.rescue_src_escrow s now caller a) = false :=
      terminal_rescueSrc hf ht
    exact ⟨t1, t2, t3, t4, applyFOp_withdrawSrc_err t1,
      applyFOp_withdrawSrcProof_err t2, applyFOp_cancelSrc_err t3,
      applyFOp_rescueSrc_err t4⟩
  · intro a ed now caller secret proof hf ht
    have t1 : isOk (Factory.withdraw_dst_escrow C s now caller a secret) = false :=
      terminal_withdrawDst hf ht
    have t2 : isOk (Factory.withdraw_dst_escrow_with_proof C s now caller a
        secret proof) = false :=
      terminal_withdrawDstProof hf ht
    have t3 : isOk (Factory.cancel_dst_escrow s now caller a) = false :=
      terminal_cancelDst hf ht
    have t4 : isOk (Factory.rescue_dst_escrow s now caller a) = false :=
      terminal_rescueDst hf ht
    exact ⟨t1, t2, t3, t4, applyFOp_withdrawDst_err t1,
      applyFOp_withdrawDstProof_err t2, applyFOp_cancelDst_err t3,
      applyFOp_rescueDst_err t4⟩

/-- C2 witness: on the concrete trace `wS3` (create then withdraw), the
stored record is terminal (`funds_withdrawn`), its flags are exclusive, and
withdraw/cancel attempts on it fail without touching the state. -/
theorem claim_C2_witness :
    (wEd3.funds_withdrawn = false ∨ wEd3.cancelled = false)
    ∧ isOk (Factory.withdraw_src_escrow cSimple wS3 260 1 7 42) = false
    ∧ isOk (Factory.cancel_src_escrow wS3 350 3 7) = false
    ∧ applyFOp cSimple wS3 (.withdrawSrc 260 1 7 42) = wS3 := by
  have hr : FReachable cSimple 9 7 wS3 :=
    FReachable.step (FOp.withdrawSrc 250 2 7 42)
      (FReachable.step (FOp.createSrc 5 42 2 3 10 100 200 300 400)
        (FReachable.step (FOp.approveF 3 100) FReachable.init))
  have h := claim_C2 cSimple 9 7 wS3 hr
  have h3 := h.2.2.1 7 wEd3 260 1 42 [] (by decide) (by decide)
  have h3b := h.2.2.1 7 wEd3 350 3 42 [] (by decide) (by decide)
  exact ⟨h.1 7 wEd3 (by decide), h3.1, h3b.2.2.1, h3.2.2.2.2.1⟩

/-! ## C8: strict ordering of the escrow time windows -/

/-- C8.  Every creation entry point rejects (with the invalid-time-window
panic, given a valid amount) any argument set violating the strict window
ordering it checks — `w < pw < c` everywhere, and additionally `c < pc` for
the full source creation — and every escrow record stored in any reachable
state has strictly ordered windows (for partial source creations
`public_cancellation_start` is derived as `cancellation_start + 3600`, hence
also strictly later). -/
theorem claim_C8 (C : Crypto) (native ca : Address) :
    (∀ (s : FactoryState) cr hs r b amt w pw c pc, (0:Int) < amt →
      ¬(w < pw ∧ pw < c ∧ c < pc) →
      Factory.create_src_escrow s cr hs r b amt w pw c pc
        = .error .invalidTimeWindow)
    ∧ (∀ (s : FactoryState) cr hs r amt w pw c, (0:Int) < amt →
      ¬(w < pw ∧ pw < c) →
      Factory.create_dst_escrow s cr hs r amt w pw c = .error .invalidTimeWindow)
    ∧ (∀ (s : FactoryState) cr hs r b amt w pw c pi tp, (0:Int) < amt →
      ¬(w < pw ∧ pw < c) →
      Factory.create_src_escrow_pf s cr hs r b amt w pw c pi tp
        = .error .invalidTimeWindow)
    ∧ (∀ (s : FactoryState) cr hs r amt w pw c pi tp, (0:Int) < amt →
      ¬(w < pw ∧ pw < c) →
      Factory.create_dst_escrow_pf s cr hs r amt w pw c pi tp
        = .error .invalidTimeWindow)
    ∧ (∀ s : FactoryState, FReachable C native ca s →
      (∀ a ed, KV.find s.srcEscrows a = some ed →
        ed.withdrawal_start < ed.public_withdrawal_start
        ∧ ed.public_withdrawal_start < ed.cancellation_start
        ∧ ed.cancellation_start < ed.public_cancellation_start)
      ∧ (∀ a ed, KV.find s.dstEscrows a = some ed →
        ed.withdrawal_start < ed.public_withdrawal_start
        ∧ ed.public_withdrawal_start < ed.cancellation_start)) := by
  refine ⟨?_, ?_, ?_, ?_, ?_⟩
  · intro s cr hs r b amt w pw c pc h0 hnot
    unfold Factory.create_src_escrow
    rw [if_neg (by omega), if_pos (by omega)]
  · intro s cr hs r amt w pw c h0 hnot
    unfold Factory.create_dst_escrow
    rw [if_neg (by omega), if_pos (by omega)]
  · intro s cr hs r b amt w pw c pi tp h0 hnot
    unfold Factory.create_src_escrow_pf
    rw [if_neg (by omega), if_pos (by omega)]
  · intro s cr hs r amt w pw c pi tp h0 hnot
    unfold Factory.create_dst_escrow_pf
    rw [if_neg (by omega), if_pos (by omega)]
  · intro s hreach
    have hwf := freachable_wf hreach
    exact ⟨fun a ed hf => (hwf.1 a ed hf).2, fun a ed hf => (hwf.2 a ed hf).2⟩

/-- C8 witness: each creation entry point rejecting
`public_withdrawal_start = withdrawal_start`, and the strict ordering of the
concrete stored record `c9Ed`. -/
theorem claim_C8_witness :
    Factory.create_src_escrow (initFactory 9 7) 5 42 2 3 10 100 100 300 400
      = .error .invalidTimeWindow
    ∧ Factory.create_dst_escrow (initFactory 9 7) 5 42 2 10 100 100 300
      = .error .invalidTimeWindow
    ∧ Factory.create_src_escrow_pf (initFactory 9 7) 5 42 2 3 10 100 100 300 0 1
      = .error .invalidTimeWindow
    ∧ Factory.create_dst_escrow_pf (initFactory 9 7) 5 42 2 10 100 100 300 0 1
      = .error .invalidTimeWindow
    ∧ (c9Ed.withdrawal_start < c9Ed.public_withdrawal_start
      ∧ c9Ed.public_withdrawal_start < c9Ed.cancellation_start
      ∧ c9Ed.cancellation_start < c9Ed.public_cancellation_start) := by
  have h := claim_C8 cSimple 9 7
  have hr : FReachable cSimple 9 7 c4O1.st :=
    FReachable.step (FOp.createSrc 5 42 2 3 10 100 200 300 400)
      (FReachable.step (FOp.approveF 3 100) FReachable.init)
  exact ⟨h.1 (initFactory 9 7) 5 42 2 3 10 100 100 300 400 (by decide) (by omega),
    h.2.1 (initFactory 9 7) 5 42 2 10 100 100 300 (by decide) (by omega),
    h.2.2.1 (initFactory 9 7) 5 42 2 3 10 100 100 300 0 1 (by decide) (by omega),
    h.2.2.2.1 (initFactory 9 7) 5 42 2 10 100 100 300 0 1 (by decide) (by omega),
    (h.2.2.2.2 c4O1.st hr).1 7 c9Ed (by decide)⟩

/-! ## C6: a part is fillable at most once -/

/-- What a successful `fill_order` does to the LOP storage: the part flag is
set, the maker's allowance is debited by the amount (which the success
guarantees was covered), the contract address is unchanged. -/
theorem fill_order_ok {L : LopState} {F : FactoryState} {oh : H32}
    {maker r : Address} {amt : Int} {hs : H32} {w pw : Nat} {p tp : Nat}
    {o : OutLF Address}
    (h : Lop.fill_order L F oh maker r amt hs w pw p tp = .ok o) :
    o.lop.partsFilled = KV.set L.partsFilled (oh, p) true
    ∧ o.lop.allowances =
        KV.set L.allowances (maker, L.lopAddr) (Lop.allowance L maker L.lopAddr - amt)
    ∧ o.lop.lopAddr = L.lopAddr
    ∧ amt ≤ Lop.allowance L maker L.lopAddr := by
  unfold Lop.fill_order at h
  dsimp only at h
  split_ifs at h with h1 h2 h3 h4 h5 h6
  all_goals try exact Except.noConfusion h
  all_goals split at h
  all_goals try exact Except.noConfusion h
  all_goals cases h
  all_goals refine ⟨rfl, rfl, rfl, by omega⟩

/-- A successful `cancel_order` does not touch the part flags, the
allowances or the contract address. -/
theorem cancel_order_lop {L : LopState} {F : FactoryState} {now : Nat}
    {caller : Address} {oh : H32} {p : Nat} {o : OutLF Unit}
    (h : Lop.cancel_order L F now caller oh p = .ok o) :
    o.lop.partsFilled = L.partsFilled
    ∧ o.lop.allowances = L.allowances
    ∧ o.lop.lopAddr = L.lopAddr := by
  unfold Lop.cancel_order at h
  split_ifs at h with h1
  all_goals try exact Except.noConfusion h
  split at h
  · exact Except.noConfusion h
  · exact Except.noConfusion h
  · cases h
    exact ⟨rfl, rfl, rfl⟩

/-- C6 (amended).  A successful fill marks (orderHash, partIndex) filled;
once marked, every further `fill_order` on the pair fails — with
`AlreadyFilled` whenever the scalar argument validations (non-zero part
count, index in range, positive amount) pass, with the corresponding
validation panic otherwise — and no LOP entry point (in particular
`cancel_order`, which only clears `is_active`) ever clears the mark. -/
theorem claim_C6_amended (L : LopState) (F : FactoryState) (oh : H32) (p : Nat) :
    (∀ maker r amt hs w pw tp o,
      Lop.fill_order L F oh maker r amt hs w pw p tp = .ok o →
      KV.find o.lop.partsFilled (oh, p) = some true)
    ∧ (∀ maker r amt hs w pw tp,
      (KV.find L.partsFilled (oh, p)).getD false = true →
      isOk (Lop.fill_order L F oh maker r amt hs w pw p tp) = false)
    ∧ (∀ maker r amt hs w pw tp,
      (KV.find L.partsFilled (oh, p)).getD false = true →
      tp ≠ 0 → p < tp → (0:Int) < amt →
      Lop.fill_order L F oh maker r amt hs w pw p tp = .error .partAlreadyFilled)
    ∧ (∀ op : LOp,
      (KV.find L.partsFilled (oh, p)).getD false = true →
      (KV.find (applyLOp (L, F) op).1.partsFilled (oh, p)).getD false = true) := by
  refine ⟨?_, ?_, ?_, ?_⟩
  · intro maker r amt hs w pw tp o hok
    rw [(fill_order_ok hok).1, KV.find_set, if_pos rfl]
  · intro maker r amt hs w pw tp hflag
    unfold Lop.fill_order
    split_ifs with h1 h2 h3 h4 h5
    any_goals rfl
    all_goals exact absurd hflag h4
  · intro maker r amt hs w pw tp hflag ht hp ha
    unfold Lop.fill_order
    rw [if_neg ht, if_neg (by omega), if_neg (by omega), if_pos hflag]
  · intro op hflag
    cases op with
    | approveL caller amt =>
      simpa only [applyLOp, Lop.approve] using hflag
    | fill oh2 maker r amt hs w pw pi tp =>
      simp only [applyLOp]
      cases hk : Lop.fill_order (L, F).1 (L, F).2 oh2 maker r amt hs w pw pi tp with
      | error e => exact hflag
      | ok o =>
        rw [(fill_order_ok hk).1, KV.find_set]
        split
        · rfl
        · exact hflag
    | cancelO now caller oh2 pi =>
      simp only [applyLOp]
      cases hk : Lop.cancel_order (L, F).1 (L, F).2 now caller oh2 pi with
      | error e => exact hflag
      | ok o =>
        rw [(cancel_order_lop hk).1]
        exact hflag

/-- C6 counterexample.  With (orderHash 11, part 0) already filled in
`c6St`, a second attempt carrying `total_parts = 0` fails with the
part-count panic, not `AlreadyFilled`: the claim's "any second attempt, with
identical or different arguments, fails AlreadyFilled" is refuted at this
input. -/
theorem claim_C6_counterexample :
    (KV.find (c6St.1).partsFilled (11, 0)).getD false = true
    ∧ Lop.fill_order c6St.1 c6St.2 11 3 2 10 42 100 200 0 0
        = .error .totalPartsZero
    ∧ Err.totalPartsZero ≠ Err.partAlreadyFilled := by decide

/-- C6 witness: the amended theorem on the concrete filled pair — the first
fill set the flag; an identical second attempt fails `AlreadyFilled` (and is
not ok); a successful cancellation of the part leaves the flag set. -/
theorem claim_C6_witness :
    KV.find (c6O.lop).partsFilled (11, 0) = some true
    ∧ isOk (Lop.fill_order c6St.1 c6St.2 11 3 2 10 42 100 200 0 1) = false
    ∧ Lop.fill_order c6St.1 c6St.2 11 3 2 10 42 100 200 0 1
        = .error .partAlreadyFilled
    ∧ (KV.find (applyLOp c6St (.cancelO 86600 3 11 0)).1.partsFilled (11, 0)).getD
        false = true := by
  have hpre := claim_C6_amended c6Pre.1 c6Pre.2 11 0
  have h := claim_C6_amended c6St.1 c6St.2 11 0
  exact ⟨hpre.1 3 2 10 42 100 200 1 c6O (by decide),
    h.2.1 3 2 10 42 100 200 1 (by decide),
    h.2.2.1 3 2 10 42 100 200 1 (by decide) (by decide) (by decide) (by decide),
    h.2.2.2 (.cancelO 86600 3 11 0) (by decide)⟩

/-! ## C7: allowance accounting of the LOP -/

/-- A run of fills all pulled from `owner` debits the allowance by the total
pulled amount (and keeps the contract address). -/
theorem runFills_allowance (owner ca0 : Address) :
    ∀ (fs : List FillArgs) (L : LopState) (F : FactoryState)
      (st2 : LopState × FactoryState),
    L.lopAddr = ca0 →
    (∀ f ∈ fs, f.maker = owner) →
    runFills (L, F) fs = some st2 →
    st2.1.lopAddr = ca0
    ∧ Lop.allowance st2.1 owner ca0 = Lop.allowance L owner ca0 - sumFills fs := by
  intro fs
  induction fs with
  | nil =>
    intro L F st2 hca hmk hrun
    cases hrun
    exact ⟨hca, by simp [sumFills]⟩
  | cons f rest ih =>
    intro L F st2 hca hmk hrun
    unfold runFills at hrun
    cases hk : Lop.fill_order L F f.oh f.maker f.recipient f.amt f.hs f.w f.pw
        f.pi f.tp with
    | error e => rw [hk] at hrun; exact Option.noConfusion hrun
    | ok o =>
      rw [hk] at hrun
      obtain ⟨-, hfl, hfaddr, -⟩ := fill_order_ok hk
      have hmk0 : f.maker = owner := hmk f (by simp)
      rw [hmk0, hca] at hfl
      have ihh := ih o.lop o.fac st2 (by rw [hfaddr, hca])
        (fun g hg => hmk g (by simp [hg])) hrun
      have hstep : Lop.allowance o.lop owner ca0
          = Lop.allowance L owner ca0 - f.amt := by
        unfold Lop.allowance
        rw [hfl, KV.find_set, if_pos rfl]
        rfl
      refine ⟨ihh.1, ?_⟩
      rw [ihh.2, hstep]
      simp only [sumFills, List.map_cons, List.sum_cons]
      omega

/-- One LOP entry point keeps all allowances non-negative, provided an
`approve` op does not itself store a negative amount. -/
theorem applyLOp_nonneg (st : LopState × FactoryState) (op : LOp)
    (h : AllowancesNonNeg st.1) (hop : approveNonNeg op) :
    AllowancesNonNeg (applyLOp st op).1 := by
  cases op with
  | approveL caller amt =>
    intro o2 sp
    simp only [applyLOp, Lop.approve]
    unfold Lop.allowance
    dsimp only
    rw [KV.find_set]
    split
    · simpa using hop
    · exact h o2 sp
  | fill oh maker r amt hs w pw pi tp =>
    simp only [applyLOp]
    cases hk : Lop.fill_order st.1 st.2 oh maker r amt hs w pw pi tp with
    | error e => exact h
    | ok o =>
      intro o2 sp
      obtain ⟨-, hfl, -, hle⟩ := fill_order_ok hk
      unfold Lop.allowance
      rw [hfl, KV.find_set]
      split
      · simp only [Option.getD_some]
        have h0 := h maker st.1.lopAddr
        omega
      · exact h o2 sp
  | cancelO now caller oh pi =>
    simp only [applyLOp]
    cases hk : Lop.cancel_order st.1 st.2 now caller oh pi with
    | error e => exact h
    | ok o =>
      intro o2 sp
      unfold Lop.allowance
      rw [(cancel_order_lop hk).2.1]
      exact h o2 sp

/-- A run of LOP ops with only non-negative approvals keeps all allowances
non-negative. -/
theorem runLOps_nonneg : ∀ (ops : List LOp) (st : LopState × FactoryState),
    AllowancesNonNeg st.1 → (∀ op ∈ ops, approveNonNeg op) →
    AllowancesNonNeg (runLOps st ops).1 := by
  intro ops
  induction ops with
  | nil => intro st h _; exact h
  | cons op rest ih =>
    intro st h hops
    exact ih (applyLOp st op) (applyLOp_nonneg st op h (hops op (by simp)))
      (fun op2 hop2 => hops op2 (by simp [hop2]))

/-- C7 (amended).  `approve(owner, A)` stores exactly `A`; a run of
successful pulls from the owner leaves `A` minus their sum; an
otherwise-valid pull exceeding the remaining allowance fails
`InsufficientAllowance` and leaves both states untouched; and the allowance
can never go below zero PROVIDED every approved amount is non-negative
(`approve` itself stores a negative `A` verbatim). -/
theorem claim_C7_amended (L : LopState) (F : FactoryState) (owner : Address)
    (A : Int) :
    (∀ L2 au, Lop.approve L owner A = .ok (L2, au) →
      Lop.allowance L2 owner L.lopAddr = A)
    ∧ (∀ (fs : List FillArgs) (st2 : LopState × FactoryState),
      (∀ f ∈ fs, f.maker = owner) →
      sumFills fs ≤ Lop.allowance L owner L.lopAddr →
      runFills (L, F) fs = some st2 →
      Lop.allowance st2.1 owner L.lopAddr
        = Lop.allowance L owner L.lopAddr - sumFills fs)
    ∧ (∀ oh maker r amt hs w pw p tp,
      tp ≠ 0 → p < tp → (0:Int) < amt →
      (KV.find L.partsFilled (oh, p)).getD false = false →
      Lop.allowance L maker L.lopAddr < amt →
      Lop.fill_order L F oh maker r amt hs w pw p tp
        = .error .insufficientAllowance
      ∧ applyLOp (L, F) (.fill oh maker r amt hs w pw p tp) = (L, F))
    ∧ (∀ ops : List LOp, AllowancesNonNeg L → (∀ op ∈ ops, approveNonNeg op) →
      AllowancesNonNeg (runLOps (L, F) ops).1) := by
  refine ⟨?_, ?_, ?_, ?_⟩
  · intro L2 au h
    unfold Lop.approve at h
    cases h
    unfold Lop.allowance
    rw [KV.find_set, if_pos rfl]
    rfl
  · intro fs st2 hmk hsum hrun
    exact (runFills_allowance owner L.lopAddr fs L F st2 rfl hmk hrun).2
  · intro oh maker r amt hs w pw p tp ht hp ha hflag hlt
    have herr : Lop.fill_order L F oh maker r amt hs w pw p tp
        = .error .insufficientAllowance := by
      unfold Lop.fill_order
      dsimp only
      rw [if_neg ht, if_neg (by omega), if_neg (by omega),
        if_neg (by simp [hflag]), if_pos hlt]
    refine ⟨herr, ?_⟩
    simp only [applyLOp]
    rw [herr]
  · intro ops h hops
    exact runLOps_nonneg ops (L, F) h hops

/-- C7 counterexample.  `approve(3, -1)` stores the allowance -1, which is
below zero: the claim's "the allowance is never below zero" is refuted. -/
theorem claim_C7_counterexample :
    Lop.allowance c7L 3 8 = -1 ∧ Lop.allowance c7L 3 8 < 0 := by decide

/-- C7 witness: approve 50 for maker 3, two pulls of 10 and 5 leave 35, an
otherwise-valid pull of 100 fails `InsufficientAllowance` changing nothing,
and allowances stay non-negative along a concrete non-negative trace. -/
theorem claim_C7_witness :
    Lop.allowance c7AL 3 8 = 50
    ∧ Lop.allowance c7St2.1 3 8
        = Lop.allowance c7AL 3 8 - sumFills c7Fills
    ∧ Lop.fill_order c7St2.1 c7St2.2 13 3 2 100 44 100 200 0 1
        = .error .insufficientAllowance
    ∧ applyLOp c7St2 (.fill 13 3 2 100 44 100 200 0 1) = c7St2
    ∧ 0 ≤ Lop.allowance
        (runLOps (initLop 8, initFactory 9 7) [.approveL 3 50]).1 3 8 := by
  have h1 := claim_C7_amended (initLop 8) (initFactory 9 7) 3 50
  have h2 := claim_C7_amended c7AL (initFactory 9 7) 3 50
  have h3 := claim_C7_amended c7St2.1 c7St2.2 3 50
  have hins := h3.2.2.1 13 3 2 100 44 100 200 0 1 (by decide) (by decide)
    (by decide) (by decide) (by decide)
  refine ⟨h1.1 c7AL [3] (by decide), ?_, hins.1, ?_, ?_⟩
  · exact h2.2.1 c7Fills c7St2 (by decide) (by decide) (by decide)
  · have := hins.2
    exact this.trans (by decide)
  · exact h1.2.2.2 [.approveL 3 50]
      (fun o sp => by unfold Lop.allowance; simp [KV.find])
      (by simp [approveNonNeg]) 3 8

/-! ## C10: fill_order requires no principal's authorization -/

/-- C10 (amended).  `fill_order` has no caller parameter and performs no
authorization check on any principal: under the listed validity conditions —
including the time-window ordering `w < pw < w + 86400` that the factory
enforces on the derived cancellation window, and an unused factory part slot
when `total_parts > 1` — the call succeeds for ANY external submitter,
debits the maker's allowance, and the only `require_auth` in the whole
composite call is the factory's check of its direct invoker, the LOP
contract itself (never the maker). -/
theorem claim_C10_amended (L : LopState) (F : FactoryState) (oh : H32)
    (maker r : Address) (amt : Int) (hs : H32) (w pw : Nat) (p tp : Nat)
    (h1 : tp ≠ 0) (h2 : p < tp) (h3 : (0:Int) < amt)
    (h4 : (KV.find L.partsFilled (oh, p)).getD false = false)
    (h5 : amt ≤ Lop.allowance L maker L.lopAddr)
    (h6 : w < pw) (h7 : pw < w + 86400)
    (h8 : 1 < tp → (KV.find F.partFillsUsed (hs, p)).getD false = false)
    (h9 : maker ≠ L.lopAddr) :
    ∃ o, Lop.fill_order L F oh maker r amt hs w pw p tp = .ok o
      ∧ Lop.allowance o.lop maker L.lopAddr
          = Lop.allowance L maker L.lopAddr - amt
      ∧ o.auths = [L.lopAddr] := by
  unfold Lop.fill_order
  dsimp only
  rw [if_neg h1, if_neg (show ¬(tp ≤ p) by omega),
    if_neg (show ¬(amt ≤ 0) by omega),
    if_neg (show ¬((KV.find L.partsFilled (oh, p)).getD false = true) by
      simp [h4]),
    if_neg (show ¬(Lop.allowance L maker L.lopAddr < amt) by omega)]
  unfold Factory.create_src_escrow_pf
  dsimp only
  rw [if_neg (show ¬(amt ≤ 0) by omega),
    if_neg (show ¬(pw ≤ w ∨ w + 86400 ≤ pw) by omega),
    if_neg (show ¬(1 < tp ∧ tp ≤ p) by omega),
    if_neg (show ¬(1 < tp ∧ (KV.find F.partFillsUsed (hs, p)).getD false = true) by
      rintro ⟨htp, hu⟩
      rw [h8 htp] at hu
      exact Bool.noConfusion hu),
    if_neg (show ¬(L.lopAddr = maker) from fun hh => h9 hh.symm),
    if_neg (show ¬(amt < amt) by omega),
    if_neg (show ¬(L.lopAddr = maker) from fun hh => h9 hh.symm)]
  refine ⟨_, rfl, ?_, rfl⟩
  unfold Lop.allowance
  split
  all_goals split
  all_goals dsimp only
  all_goals rw [KV.find_set, if_pos rfl]
  all_goals rfl

/-- C10 counterexample.  All conditions the claim lists hold — the pair
(11, 0) is unfilled, total_parts = 1 > 0, part_index 0 < 1, amount 10 > 0,
and maker 3's allowance is 100 ≥ 10 — yet the call fails, because the claim
omits the factory's time-window validation (`public_withdrawal_start` here
equals `withdrawal_start`). -/
theorem claim_C10_counterexample :
    (KV.find c10L.partsFilled (11, 0)).getD false = false
    ∧ (0:Nat) < 1
    ∧ (0:Int) < 10
    ∧ (10:Int) ≤ Lop.allowance c10L 3 8
    ∧ Lop.fill_order c10L (initFactory 9 7) 11 3 2 10 42 100 100 0 1
        = .error .invalidTimeWindow := by decide

/-- C10 witness: a concrete authorization-free fill succeeds, debits maker
3's allowance by 10 and requires authorization only of the LOP contract
address 8. -/
theorem claim_C10_witness :
    ∃ o, Lop.fill_order c10L (initFactory 9 7) 11 3 2 10 42 100 200 0 1 = .ok o
      ∧ Lop.allowance o.lop 3 c10L.lopAddr
          = Lop.allowance c10L 3 c10L.lopAddr - 10
      ∧ o.auths = [c10L.lopAddr] :=
  claim_C10_amended c10L (initFactory 9 7) 11 3 2 10 42 100 200 0 1
    (by decide) (by decide) (by decide) (by decide) (by decide) (by decide)
    (by decide) (fun h => absurd h (by decide)) (by decide)
